import Mathlib

/-!
# reproc (Windows backend): resource ownership of the process handle

Shallow embedding of `src/c/windows/reproc.c`.

* Native handles are natural numbers, `NULL` (0) is the closed sentinel.
* The operating system is an explicit state `OS`: the handles that are open,
  the handles marked non-inheritable, an allocation counter, the last-error
  cell and the trace of every call that crossed the library boundary.
* What the operating system (or a collaborator) answers to a call is an
  explicit argument of the operation (`StartAnswers`, `WaitAnswers`, ...), so
  every theorem below quantifies over every possible answer.
* `handle.h`, `pipe.h`, `process_utils.h` and `string_utils.h` are not part of
  the sources at hand; their functions are modelled from the specification.
-/

namespace Reproc

/-! ## Data model -/

abbrev HANDLE := Nat
abbrev DWORD := Nat
abbrev CString := List Nat
abbrev WString := List Nat

/-- The closed sentinel of a handle slot. -/
abbrev NULL : HANDLE := 0

/-- Modelled from the spec: the results of `reproc/reproc.h` (section 7).
`REPROC_SUCCESS` is the value that `if (error)` treats as "no error".
reproc.c names `REPROC_SUCCESS`, `REPROC_WAIT_TIMEOUT` and
`REPROC_UNKNOWN_ERROR`; `REPROC_SYSTEM_ERROR` is a further error result that
the helpers may hand back. Section 7 lists kinds, not identifiers: its
system-error kind is an error result whose platform code the
last-system-error query returns (`reproc_system_error`). -/
inductive REPROC_ERROR where
  | REPROC_SUCCESS
  | REPROC_SYSTEM_ERROR
  | REPROC_WAIT_TIMEOUT
  | REPROC_UNKNOWN_ERROR
  deriving DecidableEq, Repr

/-- Modelled from the spec: the stream selector of `reproc/reproc.h`. -/
inductive REPROC_STREAM where
  | REPROC_STDIN
  | REPROC_STDOUT
  | REPROC_STDERR
  deriving DecidableEq, Repr

/-- Modelled from the spec: `reproc_type` of `reproc/reproc.h` (section 3): the
process id, the process handle and the three parent-side pipe ends. -/
structure reproc_type where
  id : DWORD
  handle : HANDLE
  parent_stdin : HANDLE
  parent_stdout : HANDLE
  parent_stderr : HANDLE
  deriving DecidableEq, Repr

/-- A zero-initialised instance. -/
def reproc_type.zero : reproc_type :=
  { id := 0, handle := NULL, parent_stdin := NULL, parent_stdout := NULL, parent_stderr := NULL }

/-- One call that leaves the library, with its arguments and its answer. -/
inductive Call where
  | pipe_init (result : REPROC_ERROR) (read write : HANDLE)
  | pipe_disable_inherit (pipe : HANDLE) (result : REPROC_ERROR)
  | string_join (argv : List CString) (result : REPROC_ERROR)
  | string_to_wstring (string : CString) (result : REPROC_ERROR)
  | process_create (command_line : Option WString) (working_directory : Option WString)
      (child_stdin child_stdout child_stderr : HANDLE) (result : REPROC_ERROR)
      (pid : DWORD) (handle : HANDLE)
  | pipe_write (pipe : HANDLE) (to_write : Nat) (result : REPROC_ERROR) (bytes_written : Nat)
  | pipe_read (pipe : HANDLE) (size : Nat) (result : REPROC_ERROR) (bytes_read : Nat)
  | CloseHandle (handle : HANDLE)
  | WaitForSingleObject (handle : HANDLE) (milliseconds : DWORD) (result : DWORD)
  | GetExitCodeProcess (handle : HANDLE) (ok : Bool) (exit_code : DWORD)
  | GenerateConsoleCtrlEvent (event : DWORD) (group : DWORD) (ok : Bool)
  | TerminateProcess (handle : HANDLE) (exit_code : DWORD) (ok : Bool)
  deriving DecidableEq, Repr

/-- The operating system as far as the library can observe it. -/
structure OS where
  live : List HANDLE
  noinherit : List HANDLE
  next : Nat
  last_error : DWORD
  trace : List Call
  deriving DecidableEq, Repr

/-- An operating system that has handed out nothing yet. -/
def OS.boot : OS :=
  { live := [], noinherit := [], next := 0, last_error := 0, trace := [] }

/-- The instance together with the operating system it lives in. -/
structure State where
  os : OS
  process : reproc_type
  deriving DecidableEq, Repr

/-! ## Windows calls used directly by reproc.c -/

def WAIT_OBJECT_0 : DWORD := 0
def WAIT_TIMEOUT : DWORD := 258
def WAIT_FAILED : DWORD := 4294967295
def CTRL_BREAK_EVENT : DWORD := 1

def SetLastError (os : OS) (code : DWORD) : OS :=
  { os with last_error := code }

/-- `CloseHandle(handle)`: the handle stops being open; the call is recorded
whether or not the handle was open. -/
def CloseHandle (os : OS) (handle : HANDLE) : OS :=
  { os with live := os.live.filter (fun h => h ≠ handle),
            trace := os.trace ++ [Call.CloseHandle handle] }

/-- `WaitForSingleObject(handle, milliseconds)` answering `result`; a failing
call stores `code` in the last-error cell. -/
def WaitForSingleObject (result code : DWORD) (os : OS) (handle : HANDLE)
    (milliseconds : DWORD) : DWORD × OS :=
  (result,
   { os with last_error := if result = WAIT_FAILED then code else os.last_error,
             trace := os.trace ++ [Call.WaitForSingleObject handle milliseconds result] })

/-- `GetExitCodeProcess(handle, exit_status)`: on success the destination
receives `exit_code`; on failure it is left alone and the last-error cell is
set to `code`. -/
def GetExitCodeProcess (ok : Bool) (exit_code code : DWORD) (os : OS) (handle : HANDLE)
    (exit_status : DWORD) : Bool × DWORD × OS :=
  (ok, (if ok then exit_code else exit_status),
   { os with last_error := if ok then os.last_error else code,
             trace := os.trace ++ [Call.GetExitCodeProcess handle ok exit_code] })

def GenerateConsoleCtrlEvent (ok : Bool) (code : DWORD) (os : OS) (event group : DWORD) :
    Bool × OS :=
  (ok,
   { os with last_error := if ok then os.last_error else code,
             trace := os.trace ++ [Call.GenerateConsoleCtrlEvent event group ok] })

def TerminateProcess (ok : Bool) (code : DWORD) (os : OS) (handle : HANDLE)
    (exit_code : DWORD) : Bool × OS :=
  (ok,
   { os with last_error := if ok then os.last_error else code,
             trace := os.trace ++ [Call.TerminateProcess handle exit_code ok] })

/-! ## Helpers of the repository whose sources are not at hand -/

/-- Modelled from the spec: `handle_close` of handle.h (section 4.1): if the
slot holds a resource, release it at the OS level and set the slot to the
closed sentinel; if the slot is already closed, do nothing. Returns the new
operating system and the new content of the slot. -/
def handle_close (os : OS) (handle : HANDLE) : OS × HANDLE :=
  if handle = NULL then (os, handle) else (CloseHandle os handle, NULL)

structure PipeInit where
  error : REPROC_ERROR
  read : HANDLE
  write : HANDLE
  os : OS

/-- Modelled from the spec: `pipe_init(&read, &write)` of pipe.h (section 4.2,
`create`): on success allocates a connected pair of fresh open endpoints and
stores them in the two slots; when the OS cannot allocate the pipe it returns
the error and the slots keep their content. -/
def pipe_init (answer : REPROC_ERROR) (os : OS) (read write : HANDLE) : PipeInit :=
  if answer = REPROC_ERROR.REPROC_SUCCESS then
    { error := REPROC_ERROR.REPROC_SUCCESS, read := os.next + 1, write := os.next + 2,
      os := { os with live := os.live ++ [os.next + 1, os.next + 2],
                      next := os.next + 2,
                      trace := os.trace ++
                        [Call.pipe_init REPROC_ERROR.REPROC_SUCCESS (os.next + 1) (os.next + 2)] } }
  else
    { error := answer, read := read, write := write,
      os := { os with trace := os.trace ++ [Call.pipe_init answer NULL NULL] } }

/-- Modelled from the spec: `pipe_disable_inherit(pipe)` of pipe.h (section
4.2, `disable_inherit`): marks the endpoint as not inheritable, or fails with
an error. -/
def pipe_disable_inherit (answer : REPROC_ERROR) (os : OS) (pipe : HANDLE) : REPROC_ERROR × OS :=
  if answer = REPROC_ERROR.REPROC_SUCCESS then
    (REPROC_ERROR.REPROC_SUCCESS,
     { os with noinherit := os.noinherit ++ [pipe],
               trace := os.trace ++ [Call.pipe_disable_inherit pipe REPROC_ERROR.REPROC_SUCCESS] })
  else
    (answer, { os with trace := os.trace ++ [Call.pipe_disable_inherit pipe answer] })

/-- Modelled from the spec: `pipe_write` of pipe.h (section 4.2, `write`): a
blocking write answering an error kind and the number of bytes transferred,
which it stores in the `bytes_written` destination. -/
def pipe_write (answer : REPROC_ERROR) (transferred : Nat) (os : OS) (pipe : HANDLE)
    (to_write : Nat) : REPROC_ERROR × Nat × OS :=
  (answer, transferred,
   { os with trace := os.trace ++ [Call.pipe_write pipe to_write answer transferred] })

/-- Modelled from the spec: `pipe_read` of pipe.h (section 4.2, `read`): a
blocking read answering an error kind and the number of bytes transferred,
which it stores in the `bytes_read` destination. -/
def pipe_read (answer : REPROC_ERROR) (transferred : Nat) (os : OS) (pipe : HANDLE)
    (size : Nat) : REPROC_ERROR × Nat × OS :=
  (answer, transferred,
   { os with trace := os.trace ++ [Call.pipe_read pipe size answer transferred] })

/-- Modelled from the spec: `string_join(argv, argc, &out)` of string_utils.h
(section 6, collaborator (a)): on success stores the joined command line in
the destination, otherwise leaves it alone. -/
def string_join (answer : REPROC_ERROR) (joined : CString) (os : OS) (argv : List CString)
    (out : Option CString) : REPROC_ERROR × Option CString × OS :=
  (answer, (if answer = REPROC_ERROR.REPROC_SUCCESS then some joined else out),
   { os with trace := os.trace ++ [Call.string_join argv answer] })

/-- Modelled from the spec: `string_to_wstring(string, &out)` of
string_utils.h (section 6, collaborator (b)): on success stores the converted
string in the destination, otherwise leaves it alone. -/
def string_to_wstring (answer : REPROC_ERROR) (widen : CString → WString) (os : OS)
    (string : Option CString) (out : Option WString) : REPROC_ERROR × Option WString × OS :=
  (answer,
   (if answer = REPROC_ERROR.REPROC_SUCCESS then some (widen (string.getD [])) else out),
   { os with trace := os.trace ++ [Call.string_to_wstring (string.getD []) answer] })

structure ProcessCreate where
  error : REPROC_ERROR
  id : DWORD
  handle : HANDLE
  os : OS

/-- Modelled from the spec: `process_create` of process_utils.h (section 4.3):
on success starts the child with the three given endpoints and stores a
process id and a fresh open process handle in the two destinations; on
failure returns the error and leaves the destinations alone. -/
def process_create (answer : REPROC_ERROR) (pid : DWORD) (os : OS)
    (command_line working_directory : Option WString)
    (child_stdin child_stdout child_stderr : HANDLE) (id : DWORD) (handle : HANDLE) :
    ProcessCreate :=
  if answer = REPROC_ERROR.REPROC_SUCCESS then
    { error := REPROC_ERROR.REPROC_SUCCESS, id := pid, handle := os.next + 1,
      os := { os with live := os.live ++ [os.next + 1],
                      next := os.next + 1,
                      trace := os.trace ++
                        [Call.process_create command_line working_directory child_stdin
                           child_stdout child_stderr REPROC_ERROR.REPROC_SUCCESS pid
                           (os.next + 1)] } }
  else
    { error := answer, id := id, handle := handle,
      os := { os with trace := os.trace ++
                        [Call.process_create command_line working_directory child_stdin
                           child_stdout child_stderr answer 0 NULL] } }

/-! ## reproc.c -/

/-- `reproc_destroy` (reproc.c lines 188-197). -/
def reproc_destroy (st : State) : State :=
  let r := handle_close st.os st.process.handle
  let st : State := { os := r.1, process := { st.process with handle := r.2 } }
  let r := handle_close st.os st.process.parent_stdin
  let st : State := { os := r.1, process := { st.process with parent_stdin := r.2 } }
  let r := handle_close st.os st.process.parent_stdout
  let st : State := { os := r.1, process := { st.process with parent_stdout := r.2 } }
  let r := handle_close st.os st.process.parent_stderr
  { os := r.1, process := { st.process with parent_stderr := r.2 } }

/-- `reproc_close` (reproc.c lines 106-115). -/
def reproc_close (st : State) (stream : REPROC_STREAM) : State :=
  match stream with
  | REPROC_STREAM.REPROC_STDIN =>
    let r := handle_close st.os st.process.parent_stdin
    { os := r.1, process := { st.process with parent_stdin := r.2 } }
  | REPROC_STREAM.REPROC_STDOUT =>
    let r := handle_close st.os st.process.parent_stdout
    { os := r.1, process := { st.process with parent_stdout := r.2 } }
  | REPROC_STREAM.REPROC_STDERR =>
    let r := handle_close st.os st.process.parent_stderr
    { os := r.1, process := { st.process with parent_stderr := r.2 } }

/-- What the operating system and the collaborators answer during one
`reproc_start`: the result of each fallible sub-step, the joined command line,
the text conversion and the process id of the child. -/
structure StartAnswers where
  pipe_init_stdin : REPROC_ERROR
  disable_inherit_stdin : REPROC_ERROR
  pipe_init_stdout : REPROC_ERROR
  disable_inherit_stdout : REPROC_ERROR
  pipe_init_stderr : REPROC_ERROR
  disable_inherit_stderr : REPROC_ERROR
  string_join : REPROC_ERROR
  command_line : CString
  to_wstring_command_line : REPROC_ERROR
  to_wstring_working_directory : REPROC_ERROR
  widen : CString → WString
  process_create : REPROC_ERROR
  pid : DWORD

/-- The local variables of `reproc_start` (lines 28-36) together with the
instance and the operating system. -/
structure StartFrame where
  child_stdin : HANDLE
  child_stdout : HANDLE
  child_stderr : HANDLE
  command_line_string : Option CString
  command_line_wstring : Option WString
  working_directory_wstring : Option WString
  error : REPROC_ERROR
  state : State

/-- Lines 28-36: every local is predeclared as NULL, `error` as success. -/
def StartFrame.enter (st : State) : StartFrame :=
  { child_stdin := NULL, child_stdout := NULL, child_stderr := NULL,
    command_line_string := none, command_line_wstring := none,
    working_directory_wstring := none,
    error := REPROC_ERROR.REPROC_SUCCESS, state := st }

/-- `if (error) { goto cleanup; }`: the rest of the body runs only when the
statement before it left no error. -/
def unless_error (f : StartFrame) (rest : StartFrame → StartFrame) : StartFrame :=
  if f.error ≠ REPROC_ERROR.REPROC_SUCCESS then f else rest f

/-- Line 43: `error = pipe_init(&child_stdin, &process->parent_stdin);` -/
def start_pipe_stdin (a : StartAnswers) (f : StartFrame) : StartFrame :=
  let r := pipe_init a.pipe_init_stdin f.state.os f.child_stdin f.state.process.parent_stdin
  { f with error := r.error, child_stdin := r.read,
           state := { os := r.os, process := { f.state.process with parent_stdin := r.write } } }

/-- Line 45: `error = pipe_disable_inherit(process->parent_stdin);` -/
def start_inherit_stdin (a : StartAnswers) (f : StartFrame) : StartFrame :=
  let r := pipe_disable_inherit a.disable_inherit_stdin f.state.os f.state.process.parent_stdin
  { f with error := r.1, state := { f.state with os := r.2 } }

/-- Line 48: `error = pipe_init(&process->parent_stdout, &child_stdout);` -/
def start_pipe_stdout (a : StartAnswers) (f : StartFrame) : StartFrame :=
  let r := pipe_init a.pipe_init_stdout f.state.os f.state.process.parent_stdout f.child_stdout
  { f with error := r.error, child_stdout := r.write,
           state := { os := r.os, process := { f.state.process with parent_stdout := r.read } } }

/-- Line 50: `error = pipe_disable_inherit(process->parent_stdout);` -/
def start_inherit_stdout (a : StartAnswers) (f : StartFrame) : StartFrame :=
  let r := pipe_disable_inherit a.disable_inherit_stdout f.state.os f.state.process.parent_stdout
  { f with error := r.1, state := { f.state with os := r.2 } }

/-- Line 53: `error = pipe_init(&process->parent_stderr, &child_stderr);` -/
def start_pipe_stderr (a : StartAnswers) (f : StartFrame) : StartFrame :=
  let r := pipe_init a.pipe_init_stderr f.state.os f.state.process.parent_stderr f.child_stderr
  { f with error := r.error, child_stderr := r.write,
           state := { os := r.os, process := { f.state.process with parent_stderr := r.read } } }

/-- Line 55: `error = pipe_disable_inherit(process->parent_stderr);` -/
def start_inherit_stderr (a : StartAnswers) (f : StartFrame) : StartFrame :=
  let r := pipe_disable_inherit a.disable_inherit_stderr f.state.os f.state.process.parent_stderr
  { f with error := r.1, state := { f.state with os := r.2 } }

/-- Line 59: `error = string_join(argv, argc, &command_line_string);` -/
def start_join (a : StartAnswers) (argv : List CString) (f : StartFrame) : StartFrame :=
  let r := string_join a.string_join a.command_line f.state.os argv f.command_line_string
  { f with error := r.1, command_line_string := r.2.1, state := { f.state with os := r.2.2 } }

/-- Lines 63-64: `error = string_to_wstring(command_line_string,
&command_line_wstring); free(command_line_string);` (the heap is not part of
the model, so `free` leaves the frame as it is). -/
def start_widen_command_line (a : StartAnswers) (f : StartFrame) : StartFrame :=
  let r := string_to_wstring a.to_wstring_command_line a.widen f.state.os
    f.command_line_string f.command_line_wstring
  { f with error := r.1, command_line_wstring := r.2.1, state := { f.state with os := r.2.2 } }

/-- Lines 68-70: `error = working_directory ? string_to_wstring(working_directory,
&working_directory_wstring) : REPROC_SUCCESS;` -/
def start_widen_working_directory (a : StartAnswers) (working_directory : Option CString)
    (f : StartFrame) : StartFrame :=
  match working_directory with
  | some wd =>
    let r := string_to_wstring a.to_wstring_working_directory a.widen f.state.os
      (some wd) f.working_directory_wstring
    { f with error := r.1, working_directory_wstring := r.2.1,
             state := { f.state with os := r.2.2 } }
  | none => { f with error := REPROC_ERROR.REPROC_SUCCESS }

/-- Lines 73-75: `error = process_create(command_line_wstring,
working_directory_wstring, child_stdin, child_stdout, child_stderr,
&process->id, &process->handle);` -/
def start_process_create (a : StartAnswers) (f : StartFrame) : StartFrame :=
  let r := process_create a.process_create a.pid f.state.os f.command_line_wstring
    f.working_directory_wstring f.child_stdin f.child_stdout f.child_stderr
    f.state.process.id f.state.process.handle
  { f with error := r.error,
           state := { os := r.os, process := { f.state.process with id := r.id, handle := r.handle } } }

/-- Lines 43-75 of `reproc_start`: the statements before the `cleanup` label. -/
def reproc_start_body (a : StartAnswers) (argv : List CString)
    (working_directory : Option CString) (f : StartFrame) : StartFrame :=
  unless_error (start_pipe_stdin a f) fun f =>
  unless_error (start_inherit_stdin a f) fun f =>
  unless_error (start_pipe_stdout a f) fun f =>
  unless_error (start_inherit_stdout a f) fun f =>
  unless_error (start_pipe_stderr a f) fun f =>
  unless_error (start_inherit_stderr a f) fun f =>
  unless_error (start_join a argv f) fun f =>
  unless_error (start_widen_command_line a f) fun f =>
  unless_error (start_widen_working_directory a working_directory f) fun f =>
  start_process_create a f

/-- Result of an operation that returns a `REPROC_ERROR`. -/
structure Outcome where
  error : REPROC_ERROR
  state : State

/-- Lines 77-92 of `reproc_start`: the `cleanup` label and the return. -/
def reproc_start_cleanup (f : StartFrame) : Outcome :=
  let r := handle_close f.state.os f.child_stdin
  let f := { f with child_stdin := r.2, state := { f.state with os := r.1 } }
  let r := handle_close f.state.os f.child_stdout
  let f := { f with child_stdout := r.2, state := { f.state with os := r.1 } }
  let r := handle_close f.state.os f.child_stderr
  let f := { f with child_stderr := r.2, state := { f.state with os := r.1 } }
  if f.error ≠ REPROC_ERROR.REPROC_SUCCESS then
    { error := f.error, state := reproc_destroy f.state }
  else
    { error := REPROC_ERROR.REPROC_SUCCESS, state := f.state }

/-- `reproc_start` (reproc.c lines 12-93). The assertions of lines 16-24 are
preconditions on the arguments and touch no state. -/
def reproc_start (a : StartAnswers) (st : State) (argv : List CString)
    (working_directory : Option CString) : Outcome :=
  reproc_start_cleanup (reproc_start_body a argv working_directory (StartFrame.enter st))

/-- Result of `reproc_write` and `reproc_read`. -/
structure Transfer where
  error : REPROC_ERROR
  bytes : Nat
  state : State

/-- `reproc_write` (reproc.c lines 95-104); `bytes` is the content of
`bytes_written` on return. -/
def reproc_write (answer : REPROC_ERROR) (transferred : Nat) (st : State) (to_write : Nat) :
    Transfer :=
  let r := pipe_write answer transferred st.os st.process.parent_stdin to_write
  { error := r.1, bytes := r.2.1,
    state := { st with os := r.2.2 } }

/-- `reproc_read` (reproc.c lines 117-136), compiled without assertions;
`bytes_read` holds `bytes` on entry. -/
def reproc_read (answer : REPROC_ERROR) (transferred : Nat) (st : State)
    (stream : REPROC_STREAM) (size : Nat) (bytes : Nat) : Transfer :=
  match stream with
  | REPROC_STREAM.REPROC_STDIN =>
    { error := REPROC_ERROR.REPROC_UNKNOWN_ERROR, bytes := bytes, state := st }
  | REPROC_STREAM.REPROC_STDOUT =>
    let r := pipe_read answer transferred st.os st.process.parent_stdout size
    { error := r.1, bytes := r.2.1,
      state := { st with os := r.2.2 } }
  | REPROC_STREAM.REPROC_STDERR =>
    let r := pipe_read answer transferred st.os st.process.parent_stderr size
    { error := r.1, bytes := r.2.1,
      state := { st with os := r.2.2 } }

/-- What the operating system answers during one `reproc_wait`. -/
structure WaitAnswers where
  wait_result : DWORD
  wait_error : DWORD
  exit_code_ok : Bool
  exit_code : DWORD
  exit_code_error : DWORD

/-- Result of `reproc_wait`: the error, the content of the exit-status
destination (`none` for a NULL destination) and the state. -/
structure WaitOutcome where
  error : REPROC_ERROR
  exit_status : Option DWORD
  state : State

/-- `reproc_wait` (reproc.c lines 138-158). `exit_status` is `none` for a
NULL destination and `some v` for a destination that currently holds `v`. -/
def reproc_wait (a : WaitAnswers) (st : State) (milliseconds : DWORD)
    (exit_status : Option DWORD) : WaitOutcome :=
  let os := SetLastError st.os 0
  let w := WaitForSingleObject a.wait_result a.wait_error os st.process.handle milliseconds
  if w.1 = WAIT_TIMEOUT then
    { error := REPROC_ERROR.REPROC_WAIT_TIMEOUT, exit_status := exit_status,
      state := { st with os := w.2 } }
  else if w.1 = WAIT_FAILED then
    { error := REPROC_ERROR.REPROC_UNKNOWN_ERROR, exit_status := exit_status,
      state := { st with os := w.2 } }
  else
    match exit_status with
    | none =>
      { error := REPROC_ERROR.REPROC_SUCCESS, exit_status := none,
        state := { st with os := w.2 } }
    | some v =>
      let os := SetLastError w.2 0
      let g := GetExitCodeProcess a.exit_code_ok a.exit_code a.exit_code_error os
        st.process.handle v
      if g.1 = false then
        { error := REPROC_ERROR.REPROC_UNKNOWN_ERROR, exit_status := some g.2.1,
          state := { st with os := g.2.2 } }
      else
        { error := REPROC_ERROR.REPROC_SUCCESS, exit_status := some g.2.1,
          state := { st with os := g.2.2 } }

/-- What the operating system answers during one `reproc_terminate` or
`reproc_kill`: the answer to the signalling call and those of the wait. -/
structure SignalAnswers where
  ok : Bool
  error_code : DWORD
  wait : WaitAnswers

/-- `reproc_terminate` (reproc.c lines 160-175). -/
def reproc_terminate (a : SignalAnswers) (st : State) (milliseconds : DWORD) : Outcome :=
  let os := SetLastError st.os 0
  let g := GenerateConsoleCtrlEvent a.ok a.error_code os CTRL_BREAK_EVENT st.process.id
  if g.1 = false then
    { error := REPROC_ERROR.REPROC_UNKNOWN_ERROR, state := { st with os := g.2 } }
  else
    let w := reproc_wait a.wait { st with os := g.2 } milliseconds none
    { error := w.error, state := w.state }

/-- `reproc_kill` (reproc.c lines 177-186). -/
def reproc_kill (a : SignalAnswers) (st : State) (milliseconds : DWORD) : Outcome :=
  let os := SetLastError st.os 0
  let t := TerminateProcess a.ok a.error_code os st.process.handle 1
  if t.1 = false then
    { error := REPROC_ERROR.REPROC_UNKNOWN_ERROR, state := { st with os := t.2 } }
  else
    let w := reproc_wait a.wait { st with os := t.2 } milliseconds none
    { error := w.error, state := w.state }

/-- `reproc_system_error` (reproc.c line 199). -/
def reproc_system_error (st : State) : DWORD := st.os.last_error

/-! ## Observations on states and traces -/

/-- The calls made between two states of the operating system. -/
def new_calls (before after : OS) : List Call :=
  after.trace.drop before.trace.length

/-- The handle a call releases, if it is a release. -/
def Call.closed : Call → Option HANDLE
  | Call.CloseHandle h => some h
  | _ => none

/-- The handles released so far, one entry per release, oldest first. -/
def released (os : OS) : List HANDLE :=
  os.trace.filterMap Call.closed

/-- The result of a call that is a sub-step of `reproc_start`. -/
def Call.result : Call → Option REPROC_ERROR
  | Call.pipe_init r _ _ => some r
  | Call.pipe_disable_inherit _ r => some r
  | Call.string_join _ r => some r
  | Call.string_to_wstring _ r => some r
  | Call.process_create _ _ _ _ _ r _ _ => some r
  | _ => none

def Call.is_sub_step (c : Call) : Bool :=
  c.result.isSome

def Call.failed (c : Call) : Bool :=
  decide (c.result ≠ some REPROC_ERROR.REPROC_SUCCESS)

def Call.is_launch : Call → Bool
  | Call.process_create _ _ _ _ _ _ _ _ => true
  | _ => false

/-- The working directory a launcher call received. -/
def Call.launch_directory : Call → Option WString
  | Call.process_create _ wd _ _ _ _ _ _ => wd
  | _ => none

/-- The releases `handle_close` issues for a list of slots: one per slot
that is not closed. -/
def closes (hs : List HANDLE) : List Call :=
  (hs.filter (fun h => h ≠ NULL)).map Call.CloseHandle

/-- The four handle slots of an instance. -/
def slots (p : reproc_type) : List HANDLE :=
  [p.handle, p.parent_stdin, p.parent_stdout, p.parent_stderr]

/-- Every slot holds the closed sentinel or a handle that is open, and no
open handle sits in two slots (each slot owns its handle). -/
def Owned (st : State) : Prop :=
  (∀ h ∈ slots st.process, h = NULL ∨ h ∈ st.os.live) ∧
  ((slots st.process).filter (fun h => h ≠ NULL)).Nodup

/-- The operating system hands out handles in increasing order, never
releases one twice and keeps no released handle open. -/
def OS.WF (os : OS) : Prop :=
  (∀ h ∈ os.live, h ≤ os.next) ∧
  (∀ h ∈ released os, h ≤ os.next ∧ h ∉ os.live) ∧
  (released os).Nodup

/-- The handles of `hs` other than the sentinel are open and pairwise
different, in a well-formed operating system. -/
def Held (os : OS) (hs : List HANDLE) : Prop :=
  OS.WF os ∧ ∀ h, h ≠ NULL → hs.count h ≤ (if h ∈ os.live then 1 else 0)

/-- The handles a frame of `reproc_start` is responsible for. -/
def StartFrame.handles (f : StartFrame) : List HANDLE :=
  [f.child_stdin, f.child_stdout, f.child_stderr, f.state.process.handle,
   f.state.process.parent_stdin, f.state.process.parent_stdout, f.state.process.parent_stderr]

/-- No slot dangles and nothing was released twice: every slot holds the
closed sentinel or a handle that is open and has never been released, and the
list of releases has no repetition. -/
def Safe (st : State) : Prop :=
  (∀ h ∈ slots st.process, h = NULL ∨ (h ∈ st.os.live ∧ h ∉ released st.os)) ∧
  (released st.os).Nodup

/-! ## The sub-steps of `reproc_start` as the specification lists them -/

/-- The record of creating a pipe when the allocation counter is `n`. -/
def planned_pipe (answer : REPROC_ERROR) (n : Nat) : Call :=
  if answer = REPROC_ERROR.REPROC_SUCCESS then
    Call.pipe_init REPROC_ERROR.REPROC_SUCCESS (n + 1) (n + 2)
  else Call.pipe_init answer NULL NULL

/-- The record of launching the child when the allocation counter is `n`. -/
def planned_launch (a : StartAnswers) (working_directory : Option CString) (n : Nat) : Call :=
  if a.process_create = REPROC_ERROR.REPROC_SUCCESS then
    Call.process_create (some (a.widen a.command_line)) (working_directory.map a.widen)
      (n + 1) (n + 4) (n + 6) REPROC_ERROR.REPROC_SUCCESS a.pid (n + 7)
  else
    Call.process_create (some (a.widen a.command_line)) (working_directory.map a.widen)
      (n + 1) (n + 4) (n + 6) a.process_create 0 NULL

/-- Section 4.4, steps 1-4, in their order: stdin pipe and its parent (write)
end made non-inheritable, stdout pipe and its parent (read) end, stderr pipe
and its parent (read) end, joining the command line, converting it,
converting the working directory when there is one. -/
def planned_preparation (a : StartAnswers) (os : OS) (argv : List CString)
    (working_directory : Option CString) : List Call :=
  [ planned_pipe a.pipe_init_stdin os.next,
    Call.pipe_disable_inherit (os.next + 2) a.disable_inherit_stdin,
    planned_pipe a.pipe_init_stdout (os.next + 2),
    Call.pipe_disable_inherit (os.next + 3) a.disable_inherit_stdout,
    planned_pipe a.pipe_init_stderr (os.next + 4),
    Call.pipe_disable_inherit (os.next + 5) a.disable_inherit_stderr,
    Call.string_join argv a.string_join,
    Call.string_to_wstring a.command_line a.to_wstring_command_line ] ++
  (match working_directory with
   | some d => [Call.string_to_wstring d a.to_wstring_working_directory]
   | none => [])

/-- Section 4.4, steps 1-5: the preparation, then launching the child with
the three child-side ends (stdin read end, stdout write end, stderr write
end). -/
def planned_calls (a : StartAnswers) (os : OS) (argv : List CString)
    (working_directory : Option CString) : List Call :=
  planned_preparation a os argv working_directory ++
  [ planned_launch a working_directory os.next ]

/-- The sub-steps that run: all of them up to and including the first that
fails. -/
def through_first_failure : List Call → List Call
  | [] => []
  | c :: cs => if c.failed then [c] else c :: through_first_failure cs

/-- The first sub-step that fails, if any. -/
def first_failure (cs : List Call) : Option Call :=
  cs.find? Call.failed

/-! ## The instance as a state machine -/

/-- One call of the public interface, with the answers it gets. -/
inductive Op where
  | start (a : StartAnswers) (argv : List CString) (working_directory : Option CString)
  | write (answer : REPROC_ERROR) (transferred to_write : Nat)
  | read (answer : REPROC_ERROR) (transferred : Nat) (stream : REPROC_STREAM) (size bytes : Nat)
  | close (stream : REPROC_STREAM)
  | wait (a : WaitAnswers) (milliseconds : DWORD) (exit_status : Option DWORD)
  | terminate (a : SignalAnswers) (milliseconds : DWORD)
  | kill (a : SignalAnswers) (milliseconds : DWORD)
  | destroy

def step (st : State) : Op → State
  | Op.start a argv wd => (reproc_start a st argv wd).state
  | Op.write answer transferred to_write =>
    (reproc_write answer transferred st to_write).state
  | Op.read answer transferred stream size bytes =>
    (reproc_read answer transferred st stream size bytes).state
  | Op.close stream => reproc_close st stream
  | Op.wait a ms exit_status => (reproc_wait a st ms exit_status).state
  | Op.terminate a ms => (reproc_terminate a st ms).state
  | Op.kill a ms => (reproc_kill a st ms).state
  | Op.destroy => reproc_destroy st

def run (st : State) (ops : List Op) : State :=
  ops.foldl step st

/-- The parent-side slot a stream selector names. -/
def stream_slot (p : reproc_type) : REPROC_STREAM → HANDLE
  | REPROC_STREAM.REPROC_STDIN => p.parent_stdin
  | REPROC_STREAM.REPROC_STDOUT => p.parent_stdout
  | REPROC_STREAM.REPROC_STDERR => p.parent_stderr

/-! ## Concrete states used to exercise the theorems -/

/-- A running instance: process handle 7 and the parent ends 2, 3 and 5 of
three pipes are open. -/
def running_example : State :=
  { os := { live := [2, 3, 5, 7], noinherit := [2, 3, 5], next := 7, last_error := 0,
            trace := [Call.CloseHandle 1, Call.CloseHandle 4, Call.CloseHandle 6] },
    process := { id := 4242, handle := 7, parent_stdin := 2, parent_stdout := 3,
                 parent_stderr := 5 } }

/-- The wait runs into its timeout. -/
def wait_times_out : WaitAnswers :=
  { wait_result := WAIT_TIMEOUT, wait_error := 0, exit_code_ok := true, exit_code := 0,
    exit_code_error := 0 }

/-- The wait sees the process exited and the exit code, 3, can be read. -/
def wait_exited : WaitAnswers :=
  { wait_result := WAIT_OBJECT_0, wait_error := 0, exit_code_ok := true, exit_code := 3,
    exit_code_error := 0 }

/-- The wait sees the process exited but the exit-code query fails with
system error 5. -/
def wait_exited_query_fails : WaitAnswers :=
  { wait_result := WAIT_OBJECT_0, wait_error := 0, exit_code_ok := false, exit_code := 0,
    exit_code_error := 5 }

/-- The wait call itself fails with system error 6. -/
def wait_fails : WaitAnswers :=
  { wait_result := WAIT_FAILED, wait_error := 6, exit_code_ok := true, exit_code := 0,
    exit_code_error := 0 }

/-- The signalling call succeeds and the process is still running at the
end of the timeout. -/
def signal_ignored : SignalAnswers :=
  { ok := true, error_code := 0, wait := wait_times_out }

/-- The signalling call succeeds and the process is seen exited. -/
def signal_obeyed : SignalAnswers :=
  { ok := true, error_code := 0, wait := wait_exited }

/-- The signalling call itself fails with system error 87. -/
def signal_fails : SignalAnswers :=
  { ok := false, error_code := 87, wait := wait_exited }

/-- Every sub-step of `reproc_start` succeeds; the child gets process id
4242. -/
def start_succeeds : StartAnswers :=
  { pipe_init_stdin := REPROC_ERROR.REPROC_SUCCESS,
    disable_inherit_stdin := REPROC_ERROR.REPROC_SUCCESS,
    pipe_init_stdout := REPROC_ERROR.REPROC_SUCCESS,
    disable_inherit_stdout := REPROC_ERROR.REPROC_SUCCESS,
    pipe_init_stderr := REPROC_ERROR.REPROC_SUCCESS,
    disable_inherit_stderr := REPROC_ERROR.REPROC_SUCCESS,
    string_join := REPROC_ERROR.REPROC_SUCCESS,
    command_line := [110, 111, 111, 112],
    to_wstring_command_line := REPROC_ERROR.REPROC_SUCCESS,
    to_wstring_working_directory := REPROC_ERROR.REPROC_SUCCESS,
    widen := fun s => s,
    process_create := REPROC_ERROR.REPROC_SUCCESS,
    pid := 4242 }

/-- The three pipes are created but the executable cannot be started. -/
def launch_fails : StartAnswers :=
  { start_succeeds with process_create := REPROC_ERROR.REPROC_SYSTEM_ERROR }

/-- The second pipe cannot be allocated. -/
def stdout_pipe_fails : StartAnswers :=
  { start_succeeds with pipe_init_stdout := REPROC_ERROR.REPROC_SYSTEM_ERROR }

/-- A zero-initialised instance in an operating system that has handed
out nothing yet. -/
def fresh_example : State :=
  { os := OS.boot, process := reproc_type.zero }

/-- The record of the failing launcher call of `launch_fails` on a fresh
operating system. -/
def failed_launch : Call :=
  Call.process_create (some [110, 111, 111, 112]) none 1 4 6
    REPROC_ERROR.REPROC_SYSTEM_ERROR 0 NULL

/-- A whole life of an instance: start, a wait that times out, closing
stdin, an ignored interrupt, a kill, and two destroys. -/
def lifecycle_example : List Op :=
  [ Op.start start_succeeds [[110, 111, 111, 112]] none,
    Op.wait wait_times_out 10 none,
    Op.close REPROC_STREAM.REPROC_STDIN,
    Op.terminate signal_ignored 100,
    Op.kill signal_obeyed 100,
    Op.destroy,
    Op.destroy ]

/-- The interrupt or kill call succeeds, then the wait call itself fails
with system error 6. -/
def signal_sent_wait_fails : SignalAnswers :=
  { ok := true, error_code := 0, wait := wait_fails }

/-! # Theorems -/

/-! ## Closing a stream (reproc_close) -/

/-- C9. For every instance and every stream selector, `reproc_close` sets the
matching parent-side slot to the closed sentinel, releases its handle exactly
when the slot was open (one CloseHandle call, after which the handle is no
longer open) and otherwise touches nothing; the other two parent-side slots,
the process handle and the process id keep their values; and a second
`reproc_close` of the same stream leaves the whole state (instance and
operating system, trace included) as it is. -/
theorem reproc_close_frame_idempotent (st : State) (s : REPROC_STREAM) :
    stream_slot (reproc_close st s).process s = NULL ∧
    (stream_slot st.process s ≠ NULL →
      new_calls st.os (reproc_close st s).os = [Call.CloseHandle (stream_slot st.process s)] ∧
      stream_slot st.process s ∉ (reproc_close st s).os.live ∧
      ∀ h, h ≠ stream_slot st.process s → (h ∈ (reproc_close st s).os.live ↔ h ∈ st.os.live)) ∧
    (stream_slot st.process s = NULL → (reproc_close st s).os = st.os) ∧
    (∀ t, t ≠ s → stream_slot (reproc_close st s).process t = stream_slot st.process t) ∧
    (reproc_close st s).process.handle = st.process.handle ∧
    (reproc_close st s).process.id = st.process.id ∧
    reproc_close (reproc_close st s) s = reproc_close st s := by
  obtain ⟨os, p⟩ := st
  cases s <;>
    simp only [reproc_close, handle_close, stream_slot] <;>
    split <;>
    simp_all [CloseHandle, new_calls, stream_slot, reproc_close, handle_close] <;>
    (intro t ht; cases t <;> simp_all [stream_slot])

/-! ## Destroying an instance (reproc_destroy) -/

/-- C2. For every instance whose four handle slots each hold the closed
sentinel or an open handle of their own (as in a never-started, partly
started, running or destroyed instance), `reproc_destroy` releases every open
handle of the instance exactly once (one CloseHandle call for it, after which
it is no longer open), releases nothing else, leaves handles outside the
instance as they were, leaves all four slots closed and the id untouched; a
second `reproc_destroy` makes no call at all and leaves the whole state
(instance and operating system) unchanged. -/
theorem reproc_destroy_idempotent (st : State) (hown : Owned st) :
    (∀ h ∈ slots st.process, h ≠ NULL →
      (new_calls st.os (reproc_destroy st).os).count (Call.CloseHandle h) = 1 ∧
      h ∉ (reproc_destroy st).os.live) ∧
    (∀ c ∈ new_calls st.os (reproc_destroy st).os,
      ∃ h ∈ slots st.process, h ≠ NULL ∧ c = Call.CloseHandle h) ∧
    (∀ h, h ∉ slots st.process → (h ∈ (reproc_destroy st).os.live ↔ h ∈ st.os.live)) ∧
    slots (reproc_destroy st).process = [NULL, NULL, NULL, NULL] ∧
    (reproc_destroy st).process.id = st.process.id ∧
    new_calls (reproc_destroy st).os (reproc_destroy (reproc_destroy st)).os = [] ∧
    reproc_destroy (reproc_destroy st) = reproc_destroy st := by
  obtain ⟨os, ⟨id, h0, h1, h2, h3⟩⟩ := st
  simp only [Owned, slots] at hown
  by_cases e0 : h0 = 0 <;> by_cases e1 : h1 = 0 <;> by_cases e2 : h2 = 0 <;>
    by_cases e3 : h3 = 0 <;>
    simp_all [reproc_destroy, handle_close, CloseHandle, new_calls, slots, List.count_cons,
      List.mem_filter] <;>
    (try simp only [and_assoc]) <;> (repeat (first | constructor | (intro h; simp_all)))

/-- Witness for C2 on a running instance with four open handles. -/
theorem reproc_destroy_idempotent_witness :
    Owned running_example ∧
    slots (reproc_destroy running_example).process = [NULL, NULL, NULL, NULL] ∧
    reproc_destroy (reproc_destroy running_example) = reproc_destroy running_example :=
  ⟨by simp [Owned, slots, running_example],
   (reproc_destroy_idempotent running_example (by simp [Owned, slots, running_example])).2.2.2.1,
   (reproc_destroy_idempotent running_example
      (by simp [Owned, slots, running_example])).2.2.2.2.2.2⟩

/-! ## Waiting (reproc_wait) -/

/-- C5. When the OS wait reports that the process exited: with an exit-status
destination and a successful exit-code query, `reproc_wait` returns
REPROC_SUCCESS, the destination holds the exit code the operating system
reported for the process handle, and the calls made are the wait followed by
that one query; with a NULL destination it returns REPROC_SUCCESS after the
wait alone (no exit-code query), writes nothing and leaves the instance as it
was. -/
theorem reproc_wait_exit_status (a : WaitAnswers) (st : State) (milliseconds : DWORD)
    (hexit : a.wait_result = WAIT_OBJECT_0) :
    (∀ v, a.exit_code_ok = true →
      (reproc_wait a st milliseconds (some v)).error = REPROC_ERROR.REPROC_SUCCESS ∧
      (reproc_wait a st milliseconds (some v)).exit_status = some a.exit_code ∧
      new_calls st.os (reproc_wait a st milliseconds (some v)).state.os =
        [Call.WaitForSingleObject st.process.handle milliseconds WAIT_OBJECT_0,
         Call.GetExitCodeProcess st.process.handle true a.exit_code]) ∧
    (reproc_wait a st milliseconds none).error = REPROC_ERROR.REPROC_SUCCESS ∧
    (reproc_wait a st milliseconds none).exit_status = none ∧
    new_calls st.os (reproc_wait a st milliseconds none).state.os =
      [Call.WaitForSingleObject st.process.handle milliseconds WAIT_OBJECT_0] ∧
    (reproc_wait a st milliseconds none).state.process = st.process := by
  refine ⟨fun v hok => ?_, ?_⟩
  · simp [reproc_wait, WaitForSingleObject, GetExitCodeProcess, SetLastError, new_calls, hexit,
      hok, WAIT_OBJECT_0, WAIT_TIMEOUT, WAIT_FAILED]
  · simp [reproc_wait, WaitForSingleObject, SetLastError, new_calls, hexit,
      WAIT_OBJECT_0, WAIT_TIMEOUT, WAIT_FAILED]

/-- Witness for C5: the running instance, a process that exited with code 3. -/
theorem reproc_wait_exit_status_witness :
    (reproc_wait wait_exited running_example 1000 (some 0)).error
      = REPROC_ERROR.REPROC_SUCCESS ∧
    (reproc_wait wait_exited running_example 1000 (some 0)).exit_status = some 3 ∧
    (reproc_wait wait_exited running_example 1000 none).error = REPROC_ERROR.REPROC_SUCCESS :=
  ⟨((reproc_wait_exit_status wait_exited running_example 1000 rfl).1 0 rfl).1,
   ((reproc_wait_exit_status wait_exited running_example 1000 rfl).1 0 rfl).2.1,
   (reproc_wait_exit_status wait_exited running_example 1000 rfl).2.1⟩

/-- C4, as stated, fails: on the running instance a first wait times out, a
second wait sees the process exited, yet with an exit-status destination and
a failing exit-code query that second wait returns REPROC_UNKNOWN_ERROR, not
REPROC_SUCCESS. -/
theorem reproc_wait_after_timeout_counterexample :
    (reproc_wait wait_times_out running_example 10 none).error
      = REPROC_ERROR.REPROC_WAIT_TIMEOUT ∧
    wait_exited_query_fails.wait_result = WAIT_OBJECT_0 ∧
    (reproc_wait wait_exited_query_fails
        (reproc_wait wait_times_out running_example 10 none).state 1000 (some 0)).error
      = REPROC_ERROR.REPROC_UNKNOWN_ERROR ∧
    (reproc_wait wait_exited_query_fails
        (reproc_wait wait_times_out running_example 10 none).state 1000 (some 0)).error
      ≠ REPROC_ERROR.REPROC_SUCCESS := by
  decide

/-- C4, amended. `reproc_wait` returns REPROC_WAIT_TIMEOUT exactly when the OS
wait reports WAIT_TIMEOUT; in that case the result is neither success nor an
error result, the exit-status destination keeps its content, the only call
made is the wait (no terminating call, no release), the instance and the set
of open handles are unchanged, and a following `reproc_wait` whose OS wait
reports the process exited returns REPROC_SUCCESS provided it has no
exit-status destination or its exit-code query succeeds. -/
theorem reproc_wait_timeout (a : WaitAnswers) (st : State) (milliseconds : DWORD)
    (exit_status : Option DWORD) :
    ((reproc_wait a st milliseconds exit_status).error = REPROC_ERROR.REPROC_WAIT_TIMEOUT ↔
      a.wait_result = WAIT_TIMEOUT) ∧
    (a.wait_result = WAIT_TIMEOUT →
      (reproc_wait a st milliseconds exit_status).error ≠ REPROC_ERROR.REPROC_SUCCESS ∧
      (reproc_wait a st milliseconds exit_status).error ≠ REPROC_ERROR.REPROC_SYSTEM_ERROR ∧
      (reproc_wait a st milliseconds exit_status).error ≠ REPROC_ERROR.REPROC_UNKNOWN_ERROR ∧
      (reproc_wait a st milliseconds exit_status).exit_status = exit_status ∧
      new_calls st.os (reproc_wait a st milliseconds exit_status).state.os =
        [Call.WaitForSingleObject st.process.handle milliseconds WAIT_TIMEOUT] ∧
      (reproc_wait a st milliseconds exit_status).state.process = st.process ∧
      (reproc_wait a st milliseconds exit_status).state.os.live = st.os.live ∧
      ∀ (b : WaitAnswers) (later : DWORD) (destination : Option DWORD),
        b.wait_result = WAIT_OBJECT_0 → (destination = none ∨ b.exit_code_ok = true) →
        (reproc_wait b (reproc_wait a st milliseconds exit_status).state later destination).error
          = REPROC_ERROR.REPROC_SUCCESS) := by
  refine ⟨?_, ?_⟩
  · simp only [reproc_wait, WaitForSingleObject]
    split
    · simp_all
    · split
      · simp_all
      · split
        · simp_all
        · split <;> simp_all
  · intro ht
    refine ⟨?_, ?_, ?_, ?_, ?_, ?_, ?_, ?_⟩ <;>
      try simp [reproc_wait, WaitForSingleObject, SetLastError, new_calls, ht]
    intro b later destination hb hd
    rcases hd with hd | hd
    · subst hd
      simp [reproc_wait, WaitForSingleObject, SetLastError, hb, WAIT_OBJECT_0, WAIT_TIMEOUT,
        WAIT_FAILED]
    · cases destination <;>
        simp [reproc_wait, WaitForSingleObject, GetExitCodeProcess, SetLastError, hb, hd,
          WAIT_OBJECT_0, WAIT_TIMEOUT, WAIT_FAILED]

/-- Witness for the amended C4: a wait that times out on the running
instance, followed by a wait that reads exit code 3. -/
theorem reproc_wait_timeout_witness :
    (reproc_wait wait_times_out running_example 10 (some 0)).error
      = REPROC_ERROR.REPROC_WAIT_TIMEOUT ∧
    (reproc_wait wait_times_out running_example 10 (some 0)).exit_status = some 0 ∧
    (reproc_wait wait_exited
        (reproc_wait wait_times_out running_example 10 (some 0)).state 1000 (some 0)).error
      = REPROC_ERROR.REPROC_SUCCESS :=
  ⟨(reproc_wait_timeout wait_times_out running_example 10 (some 0)).1.2 rfl,
   ((reproc_wait_timeout wait_times_out running_example 10 (some 0)).2 rfl).2.2.2.1,
   ((reproc_wait_timeout wait_times_out running_example 10 (some 0)).2 rfl).2.2.2.2.2.2.2
      wait_exited 1000 (some 0) rfl (Or.inr rfl)⟩

/-! ## Interrupting and killing (reproc_terminate, reproc_kill) -/

/-- C6. When the console-control event is sent successfully and the process
has not exited at the end of the timeout, `reproc_terminate` returns
REPROC_WAIT_TIMEOUT; the calls it made are the CTRL_BREAK event for the group
`process->id` followed by the wait on the process handle, so no forcible
termination and no release was issued; the instance (process handle
included) and the set of open handles are unchanged. A following
`reproc_kill` whose TerminateProcess call succeeds and whose wait sees the
process exited returns REPROC_SUCCESS, after calling TerminateProcess on the
same process handle and waiting on it. -/
theorem reproc_terminate_timeout_then_kill (a : SignalAnswers) (st : State)
    (milliseconds : DWORD) (hsent : a.ok = true)
    (hignored : a.wait.wait_result = WAIT_TIMEOUT) :
    (reproc_terminate a st milliseconds).error = REPROC_ERROR.REPROC_WAIT_TIMEOUT ∧
    new_calls st.os (reproc_terminate a st milliseconds).state.os =
      [Call.GenerateConsoleCtrlEvent CTRL_BREAK_EVENT st.process.id true,
       Call.WaitForSingleObject st.process.handle milliseconds WAIT_TIMEOUT] ∧
    (reproc_terminate a st milliseconds).state.process = st.process ∧
    (reproc_terminate a st milliseconds).state.os.live = st.os.live ∧
    ∀ (k : SignalAnswers) (later : DWORD),
      k.ok = true → k.wait.wait_result = WAIT_OBJECT_0 →
      (reproc_kill k (reproc_terminate a st milliseconds).state later).error
        = REPROC_ERROR.REPROC_SUCCESS ∧
      new_calls (reproc_terminate a st milliseconds).state.os
          (reproc_kill k (reproc_terminate a st milliseconds).state later).state.os =
        [Call.TerminateProcess st.process.handle 1 true,
         Call.WaitForSingleObject st.process.handle later WAIT_OBJECT_0] := by
  refine ⟨?_, ?_, ?_, ?_, ?_⟩
  · simp [reproc_terminate, reproc_wait, GenerateConsoleCtrlEvent, WaitForSingleObject,
      SetLastError, hsent, hignored]
  · simp [reproc_terminate, reproc_wait, GenerateConsoleCtrlEvent, WaitForSingleObject,
      SetLastError, new_calls, hsent, hignored]
  · simp [reproc_terminate, reproc_wait, GenerateConsoleCtrlEvent, WaitForSingleObject,
      SetLastError, hsent, hignored]
  · simp [reproc_terminate, reproc_wait, GenerateConsoleCtrlEvent, WaitForSingleObject,
      SetLastError, hsent, hignored]
  · intro k later hk hexit
    simp [reproc_kill, reproc_terminate, reproc_wait, GenerateConsoleCtrlEvent,
      TerminateProcess, WaitForSingleObject, SetLastError, new_calls, hsent, hignored, hk,
      hexit, WAIT_OBJECT_0, WAIT_TIMEOUT, WAIT_FAILED]

/-- Witness for C6: the running instance ignores the interrupt and is then
killed. -/
theorem reproc_terminate_timeout_then_kill_witness :
    (reproc_terminate signal_ignored running_example 100).error
      = REPROC_ERROR.REPROC_WAIT_TIMEOUT ∧
    (reproc_terminate signal_ignored running_example 100).state.process
      = running_example.process ∧
    (reproc_kill signal_obeyed (reproc_terminate signal_ignored running_example 100).state
        100).error = REPROC_ERROR.REPROC_SUCCESS :=
  ⟨(reproc_terminate_timeout_then_kill signal_ignored running_example 100 rfl rfl).1,
   (reproc_terminate_timeout_then_kill signal_ignored running_example 100 rfl rfl).2.2.1,
   ((reproc_terminate_timeout_then_kill signal_ignored running_example 100 rfl rfl).2.2.2.2
      signal_obeyed 100 rfl rfl).1⟩

/-! ## How failures of the operating system are reported -/

/-- C7. Section 7 lists kinds of results, not identifiers: the system-error
kind is an error result whose platform code can be fetched by the
last-system-error query, the fallback kind is an error result with no failing
call behind it. In reproc.c the identifier REPROC_UNKNOWN_ERROR carries both.
Every failure of an underlying OS call is surfaced as the system-error kind:
a failing wait, a failing exit-code query, a failing console-control event,
a failing TerminateProcess, and a wait that fails inside `reproc_terminate`
or `reproc_kill`, each return REPROC_UNKNOWN_ERROR and leave the code of the
failing call to `reproc_system_error`. `reproc_wait`, `reproc_terminate` and
`reproc_kill` return success, the timeout or that error and nothing else, and
they return the error only when one of these calls failed. `reproc_read` with
the stdout or stderr selector makes one pipe read on the matching parent end
and returns its result; the error result with no call behind it is returned
only for the stdin selector, which leaves the whole state untouched. -/
theorem os_failure_reported_with_code (st : State) (milliseconds : DWORD) :
    (∀ (a : WaitAnswers) (exit_status : Option DWORD), a.wait_result = WAIT_FAILED →
      (reproc_wait a st milliseconds exit_status).error = REPROC_ERROR.REPROC_UNKNOWN_ERROR ∧
      reproc_system_error (reproc_wait a st milliseconds exit_status).state = a.wait_error) ∧
    (∀ (a : WaitAnswers) (v : DWORD), a.wait_result ≠ WAIT_TIMEOUT →
      a.wait_result ≠ WAIT_FAILED → a.exit_code_ok = false →
      (reproc_wait a st milliseconds (some v)).error = REPROC_ERROR.REPROC_UNKNOWN_ERROR ∧
      reproc_system_error (reproc_wait a st milliseconds (some v)).state = a.exit_code_error) ∧
    (∀ (a : SignalAnswers), a.ok = false →
      (reproc_terminate a st milliseconds).error = REPROC_ERROR.REPROC_UNKNOWN_ERROR ∧
      reproc_system_error (reproc_terminate a st milliseconds).state = a.error_code ∧
      (reproc_kill a st milliseconds).error = REPROC_ERROR.REPROC_UNKNOWN_ERROR ∧
      reproc_system_error (reproc_kill a st milliseconds).state = a.error_code) ∧
    (∀ (a : SignalAnswers), a.ok = true → a.wait.wait_result = WAIT_FAILED →
      (reproc_terminate a st milliseconds).error = REPROC_ERROR.REPROC_UNKNOWN_ERROR ∧
      reproc_system_error (reproc_terminate a st milliseconds).state = a.wait.wait_error ∧
      (reproc_kill a st milliseconds).error = REPROC_ERROR.REPROC_UNKNOWN_ERROR ∧
      reproc_system_error (reproc_kill a st milliseconds).state = a.wait.wait_error) ∧
    (∀ (a : WaitAnswers) (exit_status : Option DWORD),
      ((reproc_wait a st milliseconds exit_status).error = REPROC_ERROR.REPROC_SUCCESS ∨
       (reproc_wait a st milliseconds exit_status).error = REPROC_ERROR.REPROC_WAIT_TIMEOUT ∨
       (reproc_wait a st milliseconds exit_status).error = REPROC_ERROR.REPROC_UNKNOWN_ERROR) ∧
      ((reproc_wait a st milliseconds exit_status).error = REPROC_ERROR.REPROC_UNKNOWN_ERROR →
        a.wait_result = WAIT_FAILED ∨
        (a.wait_result ≠ WAIT_TIMEOUT ∧ exit_status ≠ none ∧ a.exit_code_ok = false))) ∧
    (∀ (a : SignalAnswers),
      ((reproc_terminate a st milliseconds).error = REPROC_ERROR.REPROC_SUCCESS ∨
       (reproc_terminate a st milliseconds).error = REPROC_ERROR.REPROC_WAIT_TIMEOUT ∨
       (reproc_terminate a st milliseconds).error = REPROC_ERROR.REPROC_UNKNOWN_ERROR) ∧
      ((reproc_terminate a st milliseconds).error = REPROC_ERROR.REPROC_UNKNOWN_ERROR →
        a.ok = false ∨ a.wait.wait_result = WAIT_FAILED) ∧
      ((reproc_kill a st milliseconds).error = REPROC_ERROR.REPROC_SUCCESS ∨
       (reproc_kill a st milliseconds).error = REPROC_ERROR.REPROC_WAIT_TIMEOUT ∨
       (reproc_kill a st milliseconds).error = REPROC_ERROR.REPROC_UNKNOWN_ERROR) ∧
      ((reproc_kill a st milliseconds).error = REPROC_ERROR.REPROC_UNKNOWN_ERROR →
        a.ok = false ∨ a.wait.wait_result = WAIT_FAILED)) ∧
    (∀ (answer : REPROC_ERROR) (transferred size bytes : Nat),
      (reproc_read answer transferred st REPROC_STREAM.REPROC_STDOUT size bytes).error = answer ∧
      new_calls st.os
          (reproc_read answer transferred st REPROC_STREAM.REPROC_STDOUT size bytes).state.os
        = [Call.pipe_read st.process.parent_stdout size answer transferred] ∧
      (reproc_read answer transferred st REPROC_STREAM.REPROC_STDERR size bytes).error = answer ∧
      new_calls st.os
          (reproc_read answer transferred st REPROC_STREAM.REPROC_STDERR size bytes).state.os
        = [Call.pipe_read st.process.parent_stderr size answer transferred] ∧
      (reproc_read answer transferred st REPROC_STREAM.REPROC_STDIN size bytes).error
        = REPROC_ERROR.REPROC_UNKNOWN_ERROR ∧
      (reproc_read answer transferred st REPROC_STREAM.REPROC_STDIN size bytes).state = st ∧
      ∀ stream : REPROC_STREAM,
        (new_calls st.os (reproc_read answer transferred st stream size bytes).state.os = [] ↔
          stream = REPROC_STREAM.REPROC_STDIN)) := by
  have hw : ∀ (s : State) (a : WaitAnswers) (exit_status : Option DWORD),
      ((reproc_wait a s milliseconds exit_status).error = REPROC_ERROR.REPROC_SUCCESS ∨
       (reproc_wait a s milliseconds exit_status).error = REPROC_ERROR.REPROC_WAIT_TIMEOUT ∨
       (reproc_wait a s milliseconds exit_status).error = REPROC_ERROR.REPROC_UNKNOWN_ERROR) ∧
      ((reproc_wait a s milliseconds exit_status).error = REPROC_ERROR.REPROC_UNKNOWN_ERROR →
        a.wait_result = WAIT_FAILED ∨
        (a.wait_result ≠ WAIT_TIMEOUT ∧ exit_status ≠ none ∧ a.exit_code_ok = false)) := by
    intro s a exit_status
    simp only [reproc_wait, WaitForSingleObject, GetExitCodeProcess]
    split
    · simp
    · split
      · simp_all
      · split
        · simp
        · split <;> simp_all
  refine ⟨?_, ?_, ?_, ?_, hw st, ?_, ?_⟩
  · intro a exit_status hf
    simp [reproc_wait, WaitForSingleObject, SetLastError, reproc_system_error, hf,
      WAIT_TIMEOUT, WAIT_FAILED]
  · intro a v h1 h2 h3
    simp [reproc_wait, WaitForSingleObject, GetExitCodeProcess, SetLastError,
      reproc_system_error, h1, h2, h3]
  · intro a h
    simp [reproc_terminate, reproc_kill, GenerateConsoleCtrlEvent, TerminateProcess,
      SetLastError, reproc_system_error, h]
  · intro a h hf
    simp [reproc_terminate, reproc_kill, reproc_wait, GenerateConsoleCtrlEvent,
      TerminateProcess, WaitForSingleObject, SetLastError, reproc_system_error, h, hf,
      WAIT_TIMEOUT, WAIT_FAILED]
  · intro a
    refine ⟨?_, ?_, ?_, ?_⟩
    · simp only [reproc_terminate, GenerateConsoleCtrlEvent]
      split
      · simp
      · exact (hw _ a.wait none).1
    · simp only [reproc_terminate, GenerateConsoleCtrlEvent]
      split
      · intro _; left; assumption
      · intro h
        rcases (hw _ a.wait none).2 h with h' | h'
        · exact Or.inr h'
        · exact absurd rfl h'.2.1
    · simp only [reproc_kill, TerminateProcess]
      split
      · simp
      · exact (hw _ a.wait none).1
    · simp only [reproc_kill, TerminateProcess]
      split
      · intro _; left; assumption
      · intro h
        rcases (hw _ a.wait none).2 h with h' | h'
        · exact Or.inr h'
        · exact absurd rfl h'.2.1
  · intro answer transferred size bytes
    refine ⟨?_, ?_, ?_, ?_, ?_, ?_, ?_⟩ <;> try simp [reproc_read, pipe_read, new_calls]
    intro stream
    cases stream <;> simp [reproc_read, pipe_read, new_calls]

/-- Witness for C7 on the running instance: a failing wait is reported as
REPROC_UNKNOWN_ERROR with system error 6 left to be queried, also when it
fails inside `reproc_terminate`; a failing TerminateProcess is reported with
system error 87. -/
theorem os_failure_reported_with_code_witness :
    (reproc_wait wait_fails running_example 1000 none).error
      = REPROC_ERROR.REPROC_UNKNOWN_ERROR ∧
    reproc_system_error (reproc_wait wait_fails running_example 1000 none).state = 6 ∧
    reproc_system_error (reproc_terminate signal_sent_wait_fails running_example 1000).state
      = 6 ∧
    (reproc_kill signal_fails running_example 1000).error
      = REPROC_ERROR.REPROC_UNKNOWN_ERROR ∧
    reproc_system_error (reproc_kill signal_fails running_example 1000).state = 87 :=
  ⟨((os_failure_reported_with_code running_example 1000).1 wait_fails none rfl).1,
   ((os_failure_reported_with_code running_example 1000).1 wait_fails none rfl).2,
   ((os_failure_reported_with_code running_example 1000).2.2.2.1 signal_sent_wait_fails
      rfl rfl).2.1,
   ((os_failure_reported_with_code running_example 1000).2.2.1 signal_fails rfl).2.2.1,
   ((os_failure_reported_with_code running_example 1000).2.2.1 signal_fails rfl).2.2.2⟩

/-! ## Starting a process (reproc_start) -/

theorem handle_close_trace (os : OS) (h : HANDLE) :
    (handle_close os h).1.trace = os.trace ++ closes [h] := by
  by_cases e : h = 0 <;> simp [handle_close, CloseHandle, closes, e]

theorem reproc_destroy_trace (st : State) :
    (reproc_destroy st).os.trace = st.os.trace ++ closes (slots st.process) := by
  obtain ⟨os, ⟨id, h0, h1, h2, h3⟩⟩ := st
  by_cases e0 : h0 = 0 <;> by_cases e1 : h1 = 0 <;> by_cases e2 : h2 = 0 <;>
    by_cases e3 : h3 = 0 <;>
    simp [reproc_destroy, handle_close, CloseHandle, closes, slots, e0, e1, e2, e3]

theorem reproc_start_cleanup_trace (f : StartFrame) :
    (reproc_start_cleanup f).error = f.error ∧
    ∃ hs, (reproc_start_cleanup f).state.os.trace = f.state.os.trace ++ closes hs := by
  constructor
  · simp only [reproc_start_cleanup]
    split <;> simp_all
  · by_cases e : f.error = REPROC_ERROR.REPROC_SUCCESS
    · refine ⟨[f.child_stdin, f.child_stdout, f.child_stderr], ?_⟩
      simp only [reproc_start_cleanup, e, ne_eq, not_true_eq_false, if_false,
        handle_close_trace]
      simp [closes, List.filter_cons]
      split <;> split <;> split <;> simp_all
    · refine ⟨[f.child_stdin, f.child_stdout, f.child_stderr] ++ slots f.state.process, ?_⟩
      simp only [reproc_start_cleanup, e, ne_eq, not_false_eq_true, if_true,
        handle_close_trace, reproc_destroy_trace]
      simp [closes, List.filter_cons, List.filter_append]
      split <;> split <;> split <;> simp_all

theorem reproc_start_body_trace (a : StartAnswers) (st : State) (argv : List CString)
    (wd : Option CString) :
    (reproc_start_body a argv wd (StartFrame.enter st)).state.os.trace =
      st.os.trace ++ through_first_failure (planned_calls a st.os argv wd) ∧
    (reproc_start_body a argv wd (StartFrame.enter st)).error =
      ((first_failure (planned_calls a st.os argv wd)).bind Call.result).getD
        REPROC_ERROR.REPROC_SUCCESS := by
  by_cases h1 : a.pipe_init_stdin = REPROC_ERROR.REPROC_SUCCESS
  swap
  · cases wd <;> simp [reproc_start_body, unless_error, start_pipe_stdin, start_inherit_stdin,
      start_pipe_stdout, start_inherit_stdout, start_pipe_stderr, start_inherit_stderr,
      start_join, start_widen_command_line, start_widen_working_directory,
      start_process_create, pipe_init, pipe_disable_inherit, string_join, string_to_wstring,
      process_create, StartFrame.enter, planned_calls, planned_preparation, planned_pipe, planned_launch,
      through_first_failure, first_failure, Call.failed, Call.result, h1]
  by_cases h2 : a.disable_inherit_stdin = REPROC_ERROR.REPROC_SUCCESS
  swap
  · cases wd <;> simp [reproc_start_body, unless_error, start_pipe_stdin, start_inherit_stdin,
      start_pipe_stdout, start_inherit_stdout, start_pipe_stderr, start_inherit_stderr,
      start_join, start_widen_command_line, start_widen_working_directory,
      start_process_create, pipe_init, pipe_disable_inherit, string_join, string_to_wstring,
      process_create, StartFrame.enter, planned_calls, planned_preparation, planned_pipe, planned_launch,
      through_first_failure, first_failure, Call.failed, Call.result, h1, h2]
  by_cases h3 : a.pipe_init_stdout = REPROC_ERROR.REPROC_SUCCESS
  swap
  · cases wd <;> simp [reproc_start_body, unless_error, start_pipe_stdin, start_inherit_stdin,
      start_pipe_stdout, start_inherit_stdout, start_pipe_stderr, start_inherit_stderr,
      start_join, start_widen_command_line, start_widen_working_directory,
      start_process_create, pipe_init, pipe_disable_inherit, string_join, string_to_wstring,
      process_create, StartFrame.enter, planned_calls, planned_preparation, planned_pipe, planned_launch,
      through_first_failure, first_failure, Call.failed, Call.result, h1, h2, h3]
  by_cases h4 : a.disable_inherit_stdout = REPROC_ERROR.REPROC_SUCCESS
  swap
  · cases wd <;> simp [reproc_start_body, unless_error, start_pipe_stdin, start_inherit_stdin,
      start_pipe_stdout, start_inherit_stdout, start_pipe_stderr, start_inherit_stderr,
      start_join, start_widen_command_line, start_widen_working_directory,
      start_process_create, pipe_init, pipe_disable_inherit, string_join, string_to_wstring,
      process_create, StartFrame.enter, planned_calls, planned_preparation, planned_pipe, planned_launch,
      through_first_failure, first_failure, Call.failed, Call.result, h1, h2, h3, h4]
  by_cases h5 : a.pipe_init_stderr = REPROC_ERROR.REPROC_SUCCESS
  swap
  · cases wd <;> simp [reproc_start_body, unless_error, start_pipe_stdin, start_inherit_stdin,
      start_pipe_stdout, start_inherit_stdout, start_pipe_stderr, start_inherit_stderr,
      start_join, start_widen_command_line, start_widen_working_directory,
      start_process_create, pipe_init, pipe_disable_inherit, string_join, string_to_wstring,
      process_create, StartFrame.enter, planned_calls, planned_preparation, planned_pipe, planned_launch,
      through_first_failure, first_failure, Call.failed, Call.result, h1, h2, h3, h4, h5]
  by_cases h6 : a.disable_inherit_stderr = REPROC_ERROR.REPROC_SUCCESS
  swap
  · cases wd <;> simp [reproc_start_body, unless_error, start_pipe_stdin, start_inherit_stdin,
      start_pipe_stdout, start_inherit_stdout, start_pipe_stderr, start_inherit_stderr,
      start_join, start_widen_command_line, start_widen_working_directory,
      start_process_create, pipe_init, pipe_disable_inherit, string_join, string_to_wstring,
      process_create, StartFrame.enter, planned_calls, planned_preparation, planned_pipe, planned_launch,
      through_first_failure, first_failure, Call.failed, Call.result, h1, h2, h3, h4, h5, h6]
  by_cases h7 : a.string_join = REPROC_ERROR.REPROC_SUCCESS
  swap
  · cases wd <;> simp [reproc_start_body, unless_error, start_pipe_stdin, start_inherit_stdin,
      start_pipe_stdout, start_inherit_stdout, start_pipe_stderr, start_inherit_stderr,
      start_join, start_widen_command_line, start_widen_working_directory,
      start_process_create, pipe_init, pipe_disable_inherit, string_join, string_to_wstring,
      process_create, StartFrame.enter, planned_calls, planned_preparation, planned_pipe, planned_launch,
      through_first_failure, first_failure, Call.failed, Call.result, h1, h2, h3, h4, h5, h6, h7]
  by_cases h8 : a.to_wstring_command_line = REPROC_ERROR.REPROC_SUCCESS
  swap
  · cases wd <;> simp [reproc_start_body, unless_error, start_pipe_stdin, start_inherit_stdin,
      start_pipe_stdout, start_inherit_stdout, start_pipe_stderr, start_inherit_stderr,
      start_join, start_widen_command_line, start_widen_working_directory,
      start_process_create, pipe_init, pipe_disable_inherit, string_join, string_to_wstring,
      process_create, StartFrame.enter, planned_calls, planned_preparation, planned_pipe, planned_launch,
      through_first_failure, first_failure, Call.failed, Call.result, h1, h2, h3, h4, h5, h6, h7, h8]
  cases wd with
  | none =>
    by_cases h10 : a.process_create = REPROC_ERROR.REPROC_SUCCESS <;>
      simp [reproc_start_body, unless_error, start_pipe_stdin, start_inherit_stdin,
      start_pipe_stdout, start_inherit_stdout, start_pipe_stderr, start_inherit_stderr,
      start_join, start_widen_command_line, start_widen_working_directory,
      start_process_create, pipe_init, pipe_disable_inherit, string_join, string_to_wstring,
      process_create, StartFrame.enter, planned_calls, planned_preparation, planned_pipe, planned_launch,
      through_first_failure, first_failure, Call.failed, Call.result, h1, h2, h3, h4, h5, h6, h7, h8, h10]
  | some d =>
    by_cases h9 : a.to_wstring_working_directory = REPROC_ERROR.REPROC_SUCCESS
    swap
    · simp [reproc_start_body, unless_error, start_pipe_stdin, start_inherit_stdin,
      start_pipe_stdout, start_inherit_stdout, start_pipe_stderr, start_inherit_stderr,
      start_join, start_widen_command_line, start_widen_working_directory,
      start_process_create, pipe_init, pipe_disable_inherit, string_join, string_to_wstring,
      process_create, StartFrame.enter, planned_calls, planned_preparation, planned_pipe, planned_launch,
      through_first_failure, first_failure, Call.failed, Call.result, h1, h2, h3, h4, h5, h6, h7, h8, h9]
    by_cases h10 : a.process_create = REPROC_ERROR.REPROC_SUCCESS <;>
      simp [reproc_start_body, unless_error, start_pipe_stdin, start_inherit_stdin,
      start_pipe_stdout, start_inherit_stdout, start_pipe_stderr, start_inherit_stderr,
      start_join, start_widen_command_line, start_widen_working_directory,
      start_process_create, pipe_init, pipe_disable_inherit, string_join, string_to_wstring,
      process_create, StartFrame.enter, planned_calls, planned_preparation, planned_pipe, planned_launch,
      through_first_failure, first_failure, Call.failed, Call.result, h1, h2, h3, h4, h5, h6, h7, h8, h9, h10]

theorem closes_no_sub_step (hs : List HANDLE) :
    (closes hs).filter Call.is_sub_step = [] ∧ (closes hs).filter Call.is_launch = [] := by
  constructor <;>
  · simp only [List.filter_eq_nil_iff, closes, List.mem_map]
    rintro c ⟨h, -, rfl⟩
    simp [Call.is_sub_step, Call.is_launch, Call.result]

theorem planned_pipe_kind (r : REPROC_ERROR) (n : Nat) :
    (planned_pipe r n).is_launch = false ∧ (planned_pipe r n).is_sub_step = true := by
  simp only [planned_pipe]
  split <;> exact ⟨rfl, rfl⟩

theorem planned_preparation_no_launch (a : StartAnswers) (os : OS) (argv : List CString)
    (wd : Option CString) :
    ∀ c ∈ planned_preparation a os argv wd, c.is_launch = false ∧ c.is_sub_step = true := by
  intro c hc
  cases wd with
  | none =>
    simp only [planned_preparation, List.append_nil, List.mem_cons, List.mem_singleton,
      List.not_mem_nil, or_false] at hc
    rcases hc with rfl | rfl | rfl | rfl | rfl | rfl | rfl | rfl <;>
      first | exact planned_pipe_kind _ _ | exact ⟨rfl, rfl⟩
  | some d =>
    simp only [planned_preparation, List.cons_append, List.nil_append, List.mem_cons,
      List.mem_singleton, List.not_mem_nil, or_false] at hc
    rcases hc with rfl | rfl | rfl | rfl | rfl | rfl | rfl | rfl | rfl <;>
      first | exact planned_pipe_kind _ _ | exact ⟨rfl, rfl⟩

theorem planned_launch_is_launch (a : StartAnswers) (wd : Option CString) (n : Nat) :
    (planned_launch a wd n).is_launch = true ∧ (planned_launch a wd n).is_sub_step = true ∧
    (planned_launch a wd n).launch_directory = wd.map a.widen := by
  simp only [planned_launch]
  split <;> simp [Call.is_launch, Call.is_sub_step, Call.result, Call.launch_directory]

theorem through_first_failure_sublist (cs : List Call) :
    (through_first_failure cs).Sublist cs := by
  induction cs with
  | nil => simp [through_first_failure]
  | cons c cs ih =>
    simp only [through_first_failure]
    split
    · simp
    · exact ih.cons₂ c

theorem first_failure_success_iff (cs : List Call) (hsub : ∀ c ∈ cs, c.is_sub_step = true) :
    (((first_failure cs).bind Call.result).getD REPROC_ERROR.REPROC_SUCCESS
        = REPROC_ERROR.REPROC_SUCCESS ↔
      ∀ c ∈ through_first_failure cs, c.result = some REPROC_ERROR.REPROC_SUCCESS) := by
  induction cs with
  | nil => simp [first_failure, through_first_failure]
  | cons c cs ih =>
    have hc : c.is_sub_step = true := hsub c (by simp)
    have ih := ih (fun x hx => hsub x (by simp [hx]))
    simp only [first_failure] at ih
    by_cases hf : c.failed = true
    · simp only [first_failure, through_first_failure, hf, List.find?_cons_of_pos,
        Option.some_bind, if_true, List.mem_singleton, forall_eq]
      simp only [Call.failed, decide_eq_true_eq] at hf
      simp only [Call.is_sub_step, Option.isSome_iff_exists] at hc
      obtain ⟨r, hr⟩ := hc
      simp_all
    · have hf2 : c.result = some REPROC_ERROR.REPROC_SUCCESS := by
        simpa [Call.failed] using hf
      simp only [first_failure, through_first_failure, hf, List.find?_cons_of_neg,
        not_false_eq_true, if_false, List.mem_cons, forall_eq_or_imp, hf2, true_and, Bool.false_eq_true]
      exact ih

theorem launch_reached_iff (pre : List Call) (l : Call)
    (hpre : ∀ c ∈ pre, c.is_launch = false) (hl : l.is_launch = true) :
    ((∃ c ∈ through_first_failure (pre ++ [l]), c.is_launch = true) ↔
      ∀ c ∈ pre, c.failed = false) := by
  induction pre with
  | nil =>
    simp only [List.nil_append, through_first_failure]
    split <;> simp [hl, through_first_failure]
  | cons c cs ih =>
    have hc : c.is_launch = false := hpre c (by simp)
    have ih := ih (fun x hx => hpre x (by simp [hx]))
    by_cases hf : c.failed = true
    · simp [through_first_failure, hf, hc]
    · simp only [Bool.not_eq_true] at hf
      simp only [List.cons_append, through_first_failure, hf, Bool.false_eq_true, if_false,
        List.mem_cons, exists_eq_or_imp, hc, false_or, forall_eq_or_imp, true_and]
      exact ih

/-- C10. For every state and every combination of answers, the sub-step calls
`reproc_start` makes are the planned calls (stdin pipe, its parent end made
non-inheritable, stdout pipe, its parent end, stderr pipe, its parent end,
command-line join, command-line conversion, working-directory conversion
when a directory was supplied, launch) in that order, up to and including
the first one that fails and none after it; the returned result is that
first failing sub-step's error, or REPROC_SUCCESS when none fails, so it is
REPROC_SUCCESS exactly when every executed sub-step succeeded; the launcher
is called at most once, and it is called exactly when no earlier sub-step
failed; and a launcher call receives no working directory exactly when the
caller supplied none. -/
theorem reproc_start_sub_steps (a : StartAnswers) (st : State) (argv : List CString)
    (wd : Option CString) :
    (new_calls st.os (reproc_start a st argv wd).state.os).filter Call.is_sub_step =
      through_first_failure (planned_calls a st.os argv wd) ∧
    (reproc_start a st argv wd).error =
      ((first_failure (planned_calls a st.os argv wd)).bind Call.result).getD
        REPROC_ERROR.REPROC_SUCCESS ∧
    ((reproc_start a st argv wd).error = REPROC_ERROR.REPROC_SUCCESS ↔
      ∀ c ∈ (new_calls st.os (reproc_start a st argv wd).state.os).filter Call.is_sub_step,
        c.result = some REPROC_ERROR.REPROC_SUCCESS) ∧
    ((new_calls st.os (reproc_start a st argv wd).state.os).filter Call.is_launch).length ≤ 1 ∧
    ((∃ c ∈ new_calls st.os (reproc_start a st argv wd).state.os, c.is_launch = true) ↔
      ∀ c ∈ planned_preparation a st.os argv wd, c.failed = false) ∧
    (∀ c ∈ new_calls st.os (reproc_start a st argv wd).state.os, c.is_launch = true →
      (c.launch_directory = none ↔ wd = none)) := by
  obtain ⟨hbt, hbe⟩ := reproc_start_body_trace a st argv wd
  obtain ⟨hce, hs, hct⟩ :=
    reproc_start_cleanup_trace (reproc_start_body a argv wd (StartFrame.enter st))
  have hprep := planned_preparation_no_launch a st.os argv wd
  have hlaunch := planned_launch_is_launch a wd st.os.next
  have hsubl := through_first_failure_sublist (planned_calls a st.os argv wd)
  have hplan : ∀ c ∈ planned_calls a st.os argv wd, c.is_sub_step = true := by
    intro c hc
    simp only [planned_calls, List.mem_append, List.mem_singleton] at hc
    rcases hc with hc | hc
    · exact (hprep c hc).2
    · rw [hc]; exact hlaunch.2.1
  have hnew : new_calls st.os (reproc_start a st argv wd).state.os =
      through_first_failure (planned_calls a st.os argv wd) ++ closes hs := by
    simp [new_calls, reproc_start, hct, hbt]
  have hall : ∀ c ∈ through_first_failure (planned_calls a st.os argv wd),
      c.is_sub_step = true := fun c hc => hplan c (hsubl.subset hc)
  have hfilter : (new_calls st.os (reproc_start a st argv wd).state.os).filter Call.is_sub_step =
      through_first_failure (planned_calls a st.os argv wd) := by
    rw [hnew, List.filter_append, (closes_no_sub_step hs).1, List.append_nil]
    exact List.filter_eq_self.mpr hall
  have herr : (reproc_start a st argv wd).error =
      ((first_failure (planned_calls a st.os argv wd)).bind Call.result).getD
        REPROC_ERROR.REPROC_SUCCESS := by
    simp only [reproc_start, hce, hbe]
  have hlf : (new_calls st.os (reproc_start a st argv wd).state.os).filter Call.is_launch =
      (through_first_failure (planned_calls a st.os argv wd)).filter Call.is_launch := by
    rw [hnew, List.filter_append, (closes_no_sub_step hs).2, List.append_nil]
  have hmem : ∀ c, (c ∈ new_calls st.os (reproc_start a st argv wd).state.os ∧
      c.is_launch = true) ↔
      (c ∈ through_first_failure (planned_calls a st.os argv wd) ∧ c.is_launch = true) := by
    intro c
    have := congrArg (fun l => c ∈ l) hlf
    simpa [List.mem_filter] using this
  refine ⟨hfilter, herr, ?_, ?_, ?_, ?_⟩
  · rw [hfilter, herr]
    exact first_failure_success_iff _ hplan
  · rw [hlf]
    have h1 : ((through_first_failure (planned_calls a st.os argv wd)).filter
        Call.is_launch).length ≤ ((planned_calls a st.os argv wd).filter Call.is_launch).length :=
      (hsubl.filter _).length_le
    have h2 : (planned_calls a st.os argv wd).filter Call.is_launch =
        [planned_launch a wd st.os.next] := by
      simp only [planned_calls, List.filter_append]
      have : (planned_preparation a st.os argv wd).filter Call.is_launch = [] := by
        simp only [List.filter_eq_nil_iff]
        intro c hc
        simp [(hprep c hc).1]
      simp [this, hlaunch.1]
    rw [h2] at h1
    simpa using h1
  · have := launch_reached_iff (planned_preparation a st.os argv wd)
      (planned_launch a wd st.os.next) (fun c hc => (hprep c hc).1) hlaunch.1
    rw [← this]
    constructor
    · rintro ⟨c, hc, hl⟩
      exact ⟨c, ((hmem c).mp ⟨hc, hl⟩).1, hl⟩
    · rintro ⟨c, hc, hl⟩
      exact ⟨c, ((hmem c).mpr ⟨hc, hl⟩).1, hl⟩
  · intro c hc hl
    have hc2 := hsubl.subset ((hmem c).mp ⟨hc, hl⟩).1
    simp only [planned_calls, List.mem_append, List.mem_singleton] at hc2
    rcases hc2 with hc2 | hc2
    · have := (hprep c hc2).1
      simp [hl] at this
    · rw [hc2, hlaunch.2.2]
      cases wd <;> simp

/-- Witness for C10: the second pipe cannot be allocated; the sub-step calls
are the first pipe, its parent end made non-inheritable and the failing
second pipe, the launcher is never called and the failure is returned. -/
theorem reproc_start_sub_steps_witness :
    (new_calls fresh_example.os
        (reproc_start stdout_pipe_fails fresh_example [[110, 111, 111, 112]] none).state.os).filter
        Call.is_sub_step =
      [Call.pipe_init REPROC_ERROR.REPROC_SUCCESS 1 2,
       Call.pipe_disable_inherit 2 REPROC_ERROR.REPROC_SUCCESS,
       Call.pipe_init REPROC_ERROR.REPROC_SYSTEM_ERROR NULL NULL] ∧
    (reproc_start stdout_pipe_fails fresh_example [[110, 111, 111, 112]] none).error =
      REPROC_ERROR.REPROC_SYSTEM_ERROR ∧
    ((new_calls fresh_example.os
        (reproc_start stdout_pipe_fails fresh_example [[110, 111, 111, 112]] none).state.os).filter
        Call.is_launch).length ≤ 1 :=
  ⟨(reproc_start_sub_steps stdout_pipe_fails fresh_example [[110, 111, 111, 112]] none).1,
   (reproc_start_sub_steps stdout_pipe_fails fresh_example [[110, 111, 111, 112]] none).2.1,
   (reproc_start_sub_steps stdout_pipe_fails fresh_example [[110, 111, 111, 112]]
      none).2.2.2.1⟩

/-- C3. When `reproc_start` returns REPROC_SUCCESS on a zero-initialised
instance, the calls it made are exactly: the stdin pipe and its write end
made non-inheritable, the stdout pipe and its read end made non-inheritable,
the stderr pipe and its read end made non-inheritable, the join and the
conversions, one launcher call that received the stdin read end, the stdout
write end and the stderr write end, and one CloseHandle for each of those
three child-side ends. The instance holds the stdin write end, the stdout
read end and the stderr read end as parent ends and the id and handle the
launcher returned; the seven handles are pairwise different and none is the
sentinel; the three parent ends and the process handle are still open, the
three parent ends are non-inheritable, and the three child-side ends are no
longer open in the parent. -/
theorem reproc_start_success (a : StartAnswers) (os : OS) (argv : List CString)
    (wd : Option CString)
    (hok : (reproc_start a { os := os, process := reproc_type.zero } argv wd).error
      = REPROC_ERROR.REPROC_SUCCESS) :
    ∃ stdin_read stdin_write stdout_read stdout_write stderr_read stderr_write handle : HANDLE,
      new_calls os (reproc_start a { os := os, process := reproc_type.zero } argv wd).state.os =
        [Call.pipe_init REPROC_ERROR.REPROC_SUCCESS stdin_read stdin_write,
         Call.pipe_disable_inherit stdin_write REPROC_ERROR.REPROC_SUCCESS,
         Call.pipe_init REPROC_ERROR.REPROC_SUCCESS stdout_read stdout_write,
         Call.pipe_disable_inherit stdout_read REPROC_ERROR.REPROC_SUCCESS,
         Call.pipe_init REPROC_ERROR.REPROC_SUCCESS stderr_read stderr_write,
         Call.pipe_disable_inherit stderr_read REPROC_ERROR.REPROC_SUCCESS,
         Call.string_join argv REPROC_ERROR.REPROC_SUCCESS,
         Call.string_to_wstring a.command_line REPROC_ERROR.REPROC_SUCCESS] ++
        (match wd with
         | some d => [Call.string_to_wstring d REPROC_ERROR.REPROC_SUCCESS]
         | none => []) ++
        [Call.process_create (some (a.widen a.command_line)) (wd.map a.widen)
           stdin_read stdout_write stderr_write REPROC_ERROR.REPROC_SUCCESS a.pid handle,
         Call.CloseHandle stdin_read, Call.CloseHandle stdout_write,
         Call.CloseHandle stderr_write] ∧
      (reproc_start a { os := os, process := reproc_type.zero } argv wd).state.process =
        { id := a.pid, handle := handle, parent_stdin := stdin_write,
          parent_stdout := stdout_read, parent_stderr := stderr_read } ∧
      [stdin_read, stdin_write, stdout_read, stdout_write, stderr_read, stderr_write,
        handle].Nodup ∧
      (∀ h ∈ [stdin_read, stdin_write, stdout_read, stdout_write, stderr_read, stderr_write,
        handle], h ≠ NULL) ∧
      (∀ h ∈ [stdin_write, stdout_read, stderr_read, handle],
        h ∈ (reproc_start a { os := os, process := reproc_type.zero } argv wd).state.os.live) ∧
      (∀ h ∈ [stdin_write, stdout_read, stderr_read],
        h ∈ (reproc_start a { os := os, process := reproc_type.zero } argv
          wd).state.os.noinherit) ∧
      (∀ h ∈ [stdin_read, stdout_write, stderr_write],
        h ∉ (reproc_start a { os := os, process := reproc_type.zero } argv wd).state.os.live) := by
  by_cases h1 : a.pipe_init_stdin = REPROC_ERROR.REPROC_SUCCESS
  swap
  · exfalso
    cases wd <;> simp [reproc_start, reproc_start_body, reproc_start_cleanup, unless_error,
      start_pipe_stdin, start_inherit_stdin, start_pipe_stdout, start_inherit_stdout,
      start_pipe_stderr, start_inherit_stderr, start_join, start_widen_command_line,
      start_widen_working_directory, start_process_create, pipe_init, pipe_disable_inherit,
      string_join, string_to_wstring, process_create, handle_close, CloseHandle,
      reproc_destroy, StartFrame.enter, reproc_type.zero, new_calls, Nat.add_assoc, h1] at hok
  by_cases h2 : a.disable_inherit_stdin = REPROC_ERROR.REPROC_SUCCESS
  swap
  · exfalso
    cases wd <;> simp [reproc_start, reproc_start_body, reproc_start_cleanup, unless_error,
      start_pipe_stdin, start_inherit_stdin, start_pipe_stdout, start_inherit_stdout,
      start_pipe_stderr, start_inherit_stderr, start_join, start_widen_command_line,
      start_widen_working_directory, start_process_create, pipe_init, pipe_disable_inherit,
      string_join, string_to_wstring, process_create, handle_close, CloseHandle,
      reproc_destroy, StartFrame.enter, reproc_type.zero, new_calls, Nat.add_assoc, h1, h2] at hok
  by_cases h3 : a.pipe_init_stdout = REPROC_ERROR.REPROC_SUCCESS
  swap
  · exfalso
    cases wd <;> simp [reproc_start, reproc_start_body, reproc_start_cleanup, unless_error,
      start_pipe_stdin, start_inherit_stdin, start_pipe_stdout, start_inherit_stdout,
      start_pipe_stderr, start_inherit_stderr, start_join, start_widen_command_line,
      start_widen_working_directory, start_process_create, pipe_init, pipe_disable_inherit,
      string_join, string_to_wstring, process_create, handle_close, CloseHandle,
      reproc_destroy, StartFrame.enter, reproc_type.zero, new_calls, Nat.add_assoc, h1, h2, h3] at hok
  by_cases h4 : a.disable_inherit_stdout = REPROC_ERROR.REPROC_SUCCESS
  swap
  · exfalso
    cases wd <;> simp [reproc_start, reproc_start_body, reproc_start_cleanup, unless_error,
      start_pipe_stdin, start_inherit_stdin, start_pipe_stdout, start_inherit_stdout,
      start_pipe_stderr, start_inherit_stderr, start_join, start_widen_command_line,
      start_widen_working_directory, start_process_create, pipe_init, pipe_disable_inherit,
      string_join, string_to_wstring, process_create, handle_close, CloseHandle,
      reproc_destroy, StartFrame.enter, reproc_type.zero, new_calls, Nat.add_assoc, h1, h2, h3, h4] at hok
  by_cases h5 : a.pipe_init_stderr = REPROC_ERROR.REPROC_SUCCESS
  swap
  · exfalso
    cases wd <;> simp [reproc_start, reproc_start_body, reproc_start_cleanup, unless_error,
      start_pipe_stdin, start_inherit_stdin, start_pipe_stdout, start_inherit_stdout,
      start_pipe_stderr, start_inherit_stderr, start_join, start_widen_command_line,
      start_widen_working_directory, start_process_create, pipe_init, pipe_disable_inherit,
      string_join, string_to_wstring, process_create, handle_close, CloseHandle,
      reproc_destroy, StartFrame.enter, reproc_type.zero, new_calls, Nat.add_assoc, h1, h2, h3, h4, h5] at hok
  by_cases h6 : a.disable_inherit_stderr = REPROC_ERROR.REPROC_SUCCESS
  swap
  · exfalso
    cases wd <;> simp [reproc_start, reproc_start_body, reproc_start_cleanup, unless_error,
      start_pipe_stdin, start_inherit_stdin, start_pipe_stdout, start_inherit_stdout,
      start_pipe_stderr, start_inherit_stderr, start_join, start_widen_command_line,
      start_widen_working_directory, start_process_create, pipe_init, pipe_disable_inherit,
      string_join, string_to_wstring, process_create, handle_close, CloseHandle,
      reproc_destroy, StartFrame.enter, reproc_type.zero, new_calls, Nat.add_assoc, h1, h2, h3, h4, h5, h6] at hok
  by_cases h7 : a.string_join = REPROC_ERROR.REPROC_SUCCESS
  swap
  · exfalso
    cases wd <;> simp [reproc_start, reproc_start_body, reproc_start_cleanup, unless_error,
      start_pipe_stdin, start_inherit_stdin, start_pipe_stdout, start_inherit_stdout,
      start_pipe_stderr, start_inherit_stderr, start_join, start_widen_command_line,
      start_widen_working_directory, start_process_create, pipe_init, pipe_disable_inherit,
      string_join, string_to_wstring, process_create, handle_close, CloseHandle,
      reproc_destroy, StartFrame.enter, reproc_type.zero, new_calls, Nat.add_assoc, h1, h2, h3, h4, h5, h6, h7] at hok
  by_cases h8 : a.to_wstring_command_line = REPROC_ERROR.REPROC_SUCCESS
  swap
  · exfalso
    cases wd <;> simp [reproc_start, reproc_start_body, reproc_start_cleanup, unless_error,
      start_pipe_stdin, start_inherit_stdin, start_pipe_stdout, start_inherit_stdout,
      start_pipe_stderr, start_inherit_stderr, start_join, start_widen_command_line,
      start_widen_working_directory, start_process_create, pipe_init, pipe_disable_inherit,
      string_join, string_to_wstring, process_create, handle_close, CloseHandle,
      reproc_destroy, StartFrame.enter, reproc_type.zero, new_calls, Nat.add_assoc, h1, h2, h3, h4, h5, h6, h7, h8] at hok
  by_cases h10 : a.process_create = REPROC_ERROR.REPROC_SUCCESS
  swap
  · exfalso
    cases wd <;>
      by_cases h9 : a.to_wstring_working_directory = REPROC_ERROR.REPROC_SUCCESS <;>
      simp [reproc_start, reproc_start_body, reproc_start_cleanup, unless_error,
      start_pipe_stdin, start_inherit_stdin, start_pipe_stdout, start_inherit_stdout,
      start_pipe_stderr, start_inherit_stderr, start_join, start_widen_command_line,
      start_widen_working_directory, start_process_create, pipe_init, pipe_disable_inherit,
      string_join, string_to_wstring, process_create, handle_close, CloseHandle,
      reproc_destroy, StartFrame.enter, reproc_type.zero, new_calls, Nat.add_assoc, h1, h2, h3, h4, h5, h6, h7, h8, h9, h10] at hok
  refine ⟨os.next + 1, os.next + 2, os.next + 3, os.next + 4, os.next + 5, os.next + 6,
    os.next + 7, ?_⟩
  cases wd with
  | none =>
    simp [reproc_start, reproc_start_body, reproc_start_cleanup, unless_error,
      start_pipe_stdin, start_inherit_stdin, start_pipe_stdout, start_inherit_stdout,
      start_pipe_stderr, start_inherit_stderr, start_join, start_widen_command_line,
      start_widen_working_directory, start_process_create, pipe_init, pipe_disable_inherit,
      string_join, string_to_wstring, process_create, handle_close, CloseHandle,
      reproc_destroy, StartFrame.enter, reproc_type.zero, new_calls, Nat.add_assoc, h1, h2, h3, h4, h5, h6, h7, h8, h10]
  | some d =>
    by_cases h9 : a.to_wstring_working_directory = REPROC_ERROR.REPROC_SUCCESS
    swap
    · exfalso
      simp [reproc_start, reproc_start_body, reproc_start_cleanup, unless_error,
      start_pipe_stdin, start_inherit_stdin, start_pipe_stdout, start_inherit_stdout,
      start_pipe_stderr, start_inherit_stderr, start_join, start_widen_command_line,
      start_widen_working_directory, start_process_create, pipe_init, pipe_disable_inherit,
      string_join, string_to_wstring, process_create, handle_close, CloseHandle,
      reproc_destroy, StartFrame.enter, reproc_type.zero, new_calls, Nat.add_assoc, h1, h2, h3, h4, h5, h6, h7, h8, h9, h10] at hok
    simp [reproc_start, reproc_start_body, reproc_start_cleanup, unless_error,
      start_pipe_stdin, start_inherit_stdin, start_pipe_stdout, start_inherit_stdout,
      start_pipe_stderr, start_inherit_stderr, start_join, start_widen_command_line,
      start_widen_working_directory, start_process_create, pipe_init, pipe_disable_inherit,
      string_join, string_to_wstring, process_create, handle_close, CloseHandle,
      reproc_destroy, StartFrame.enter, reproc_type.zero, new_calls, Nat.add_assoc, h1, h2, h3, h4, h5, h6, h7, h8, h9, h10]

/-- Witness for C3: every sub-step succeeds on a zero-initialised instance;
the parent end of stdin is then an open handle held by the instance. -/
theorem reproc_start_success_witness :
    (reproc_start start_succeeds fresh_example [[110, 111, 111, 112]] none).error
      = REPROC_ERROR.REPROC_SUCCESS ∧
    ∃ stdin_write : HANDLE,
      (reproc_start start_succeeds fresh_example [[110, 111, 111, 112]] none).state.process.parent_stdin
        = stdin_write ∧
      stdin_write ∈
        (reproc_start start_succeeds fresh_example [[110, 111, 111, 112]] none).state.os.live :=
  ⟨by decide, by
    obtain ⟨_, sw, _, _, _, _, _, -, hp, -, -, hl, -, -⟩ :=
      reproc_start_success start_succeeds OS.boot [[110, 111, 111, 112]] none (by decide)
    exact ⟨sw, by simp only [fresh_example]; rw [hp], hl sw (by simp)⟩⟩

set_option maxHeartbeats 4000000 in
/-- C1. On a zero-initialised instance, whichever sub-step of `reproc_start`
is the first to fail (a pipe creation, a disabling of inheritance, the join,
a conversion, or the launch), `reproc_start` returns that sub-step's error,
which is not REPROC_SUCCESS; both ends of every pipe created during the call
were handed to CloseHandle exactly once during the call and are no longer
open; the instance is back to all zero, so its four handle slots hold the
closed sentinel; and a following `reproc_destroy` changes neither the
instance nor the operating system (it makes no call). -/
theorem reproc_start_failure_unwinds (a : StartAnswers) (os : OS) (argv : List CString)
    (wd : Option CString) (c : Call)
    (hfirst : first_failure (planned_calls a os argv wd) = some c) :
    some (reproc_start a { os := os, process := reproc_type.zero } argv wd).error = c.result ∧
    (reproc_start a { os := os, process := reproc_type.zero } argv wd).error
      ≠ REPROC_ERROR.REPROC_SUCCESS ∧
    (∀ rd wr, Call.pipe_init REPROC_ERROR.REPROC_SUCCESS rd wr ∈
        new_calls os (reproc_start a { os := os, process := reproc_type.zero } argv wd).state.os →
      rd ≠ NULL ∧ wr ≠ NULL ∧
      (new_calls os (reproc_start a { os := os, process := reproc_type.zero } argv
        wd).state.os).count (Call.CloseHandle rd) = 1 ∧
      (new_calls os (reproc_start a { os := os, process := reproc_type.zero } argv
        wd).state.os).count (Call.CloseHandle wr) = 1 ∧
      rd ∉ (reproc_start a { os := os, process := reproc_type.zero } argv wd).state.os.live ∧
      wr ∉ (reproc_start a { os := os, process := reproc_type.zero } argv wd).state.os.live) ∧
    (reproc_start a { os := os, process := reproc_type.zero } argv wd).state.process
      = reproc_type.zero ∧
    slots (reproc_start a { os := os, process := reproc_type.zero } argv wd).state.process
      = [NULL, NULL, NULL, NULL] ∧
    reproc_destroy (reproc_start a { os := os, process := reproc_type.zero } argv wd).state
      = (reproc_start a { os := os, process := reproc_type.zero } argv wd).state := by
  by_cases h1 : a.pipe_init_stdin = REPROC_ERROR.REPROC_SUCCESS
  swap
  · have hne : ¬REPROC_ERROR.REPROC_SUCCESS = a.pipe_init_stdin := fun h => h1 h.symm
    cases wd <;>
    · simp [planned_calls, planned_preparation, planned_pipe, planned_launch, first_failure,
      Call.failed, Call.result, h1] at hfirst
      subst hfirst
      simp [reproc_start, reproc_start_body, reproc_start_cleanup, unless_error,
      start_pipe_stdin, start_inherit_stdin, start_pipe_stdout, start_inherit_stdout,
      start_pipe_stderr, start_inherit_stderr, start_join, start_widen_command_line,
      start_widen_working_directory, start_process_create, pipe_init, pipe_disable_inherit,
      string_join, string_to_wstring, process_create, handle_close, CloseHandle,
      reproc_destroy, StartFrame.enter, reproc_type.zero, new_calls, Nat.add_assoc,
      Call.result, List.count_cons, slots, h1, hne]
  by_cases h2 : a.disable_inherit_stdin = REPROC_ERROR.REPROC_SUCCESS
  swap
  · have hne : ¬REPROC_ERROR.REPROC_SUCCESS = a.disable_inherit_stdin := fun h => h2 h.symm
    cases wd <;>
    · simp [planned_calls, planned_preparation, planned_pipe, planned_launch, first_failure,
      Call.failed, Call.result, h1, h2] at hfirst
      subst hfirst
      simp [reproc_start, reproc_start_body, reproc_start_cleanup, unless_error,
      start_pipe_stdin, start_inherit_stdin, start_pipe_stdout, start_inherit_stdout,
      start_pipe_stderr, start_inherit_stderr, start_join, start_widen_command_line,
      start_widen_working_directory, start_process_create, pipe_init, pipe_disable_inherit,
      string_join, string_to_wstring, process_create, handle_close, CloseHandle,
      reproc_destroy, StartFrame.enter, reproc_type.zero, new_calls, Nat.add_assoc,
      Call.result, List.count_cons, slots, h1, h2, hne]
  by_cases h3 : a.pipe_init_stdout = REPROC_ERROR.REPROC_SUCCESS
  swap
  · have hne : ¬REPROC_ERROR.REPROC_SUCCESS = a.pipe_init_stdout := fun h => h3 h.symm
    cases wd <;>
    · simp [planned_calls, planned_preparation, planned_pipe, planned_launch, first_failure,
      Call.failed, Call.result, h1, h2, h3] at hfirst
      subst hfirst
      simp [reproc_start, reproc_start_body, reproc_start_cleanup, unless_error,
      start_pipe_stdin, start_inherit_stdin, start_pipe_stdout, start_inherit_stdout,
      start_pipe_stderr, start_inherit_stderr, start_join, start_widen_command_line,
      start_widen_working_directory, start_process_create, pipe_init, pipe_disable_inherit,
      string_join, string_to_wstring, process_create, handle_close, CloseHandle,
      reproc_destroy, StartFrame.enter, reproc_type.zero, new_calls, Nat.add_assoc,
      Call.result, List.count_cons, slots, h1, h2, h3, hne]
  by_cases h4 : a.disable_inherit_stdout = REPROC_ERROR.REPROC_SUCCESS
  swap
  · have hne : ¬REPROC_ERROR.REPROC_SUCCESS = a.disable_inherit_stdout := fun h => h4 h.symm
    cases wd <;>
    · simp [planned_calls, planned_preparation, planned_pipe, planned_launch, first_failure,
      Call.failed, Call.result, h1, h2, h3, h4] at hfirst
      subst hfirst
      simp [reproc_start, reproc_start_body, reproc_start_cleanup, unless_error,
      start_pipe_stdin, start_inherit_stdin, start_pipe_stdout, start_inherit_stdout,
      start_pipe_stderr, start_inherit_stderr, start_join, start_widen_command_line,
      start_widen_working_directory, start_process_create, pipe_init, pipe_disable_inherit,
      string_join, string_to_wstring, process_create, handle_close, CloseHandle,
      reproc_destroy, StartFrame.enter, reproc_type.zero, new_calls, Nat.add_assoc,
      Call.result, List.count_cons, slots, h1, h2, h3, h4, hne]
      rintro rd wr (⟨rfl, rfl⟩ | ⟨rfl, rfl⟩) <;> simp
  by_cases h5 : a.pipe_init_stderr = REPROC_ERROR.REPROC_SUCCESS
  swap
  · have hne : ¬REPROC_ERROR.REPROC_SUCCESS = a.pipe_init_stderr := fun h => h5 h.symm
    cases wd <;>
    · simp [planned_calls, planned_preparation, planned_pipe, planned_launch, first_failure,
      Call.failed, Call.result, h1, h2, h3, h4, h5] at hfirst
      subst hfirst
      simp [reproc_start, reproc_start_body, reproc_start_cleanup, unless_error,
      start_pipe_stdin, start_inherit_stdin, start_pipe_stdout, start_inherit_stdout,
      start_pipe_stderr, start_inherit_stderr, start_join, start_widen_command_line,
      start_widen_working_directory, start_process_create, pipe_init, pipe_disable_inherit,
      string_join, string_to_wstring, process_create, handle_close, CloseHandle,
      reproc_destroy, StartFrame.enter, reproc_type.zero, new_calls, Nat.add_assoc,
      Call.result, List.count_cons, slots, h1, h2, h3, h4, h5, hne]
      rintro rd wr (⟨rfl, rfl⟩ | ⟨rfl, rfl⟩) <;> simp
  by_cases h6 : a.disable_inherit_stderr = REPROC_ERROR.REPROC_SUCCESS
  swap
  · have hne : ¬REPROC_ERROR.REPROC_SUCCESS = a.disable_inherit_stderr := fun h => h6 h.symm
    cases wd <;>
    · simp [planned_calls, planned_preparation, planned_pipe, planned_launch, first_failure,
      Call.failed, Call.result, h1, h2, h3, h4, h5, h6] at hfirst
      subst hfirst
      simp [reproc_start, reproc_start_body, reproc_start_cleanup, unless_error,
      start_pipe_stdin, start_inherit_stdin, start_pipe_stdout, start_inherit_stdout,
      start_pipe_stderr, start_inherit_stderr, start_join, start_widen_command_line,
      start_widen_working_directory, start_process_create, pipe_init, pipe_disable_inherit,
      string_join, string_to_wstring, process_create, handle_close, CloseHandle,
      reproc_destroy, StartFrame.enter, reproc_type.zero, new_calls, Nat.add_assoc,
      Call.result, List.count_cons, slots, h1, h2, h3, h4, h5, h6, hne]
      rintro rd wr (⟨rfl, rfl⟩ | ⟨rfl, rfl⟩ | ⟨rfl, rfl⟩) <;> simp
  by_cases h7 : a.string_join = REPROC_ERROR.REPROC_SUCCESS
  swap
  · have hne : ¬REPROC_ERROR.REPROC_SUCCESS = a.string_join := fun h => h7 h.symm
    cases wd <;>
    · simp [planned_calls, planned_preparation, planned_pipe, planned_launch, first_failure,
      Call.failed, Call.result, h1, h2, h3, h4, h5, h6, h7] at hfirst
      subst hfirst
      simp [reproc_start, reproc_start_body, reproc_start_cleanup, unless_error,
      start_pipe_stdin, start_inherit_stdin, start_pipe_stdout, start_inherit_stdout,
      start_pipe_stderr, start_inherit_stderr, start_join, start_widen_command_line,
      start_widen_working_directory, start_process_create, pipe_init, pipe_disable_inherit,
      string_join, string_to_wstring, process_create, handle_close, CloseHandle,
      reproc_destroy, StartFrame.enter, reproc_type.zero, new_calls, Nat.add_assoc,
      Call.result, List.count_cons, slots, h1, h2, h3, h4, h5, h6, h7, hne]
      rintro rd wr (⟨rfl, rfl⟩ | ⟨rfl, rfl⟩ | ⟨rfl, rfl⟩) <;> simp
  by_cases h8 : a.to_wstring_command_line = REPROC_ERROR.REPROC_SUCCESS
  swap
  · have hne : ¬REPROC_ERROR.REPROC_SUCCESS = a.to_wstring_command_line := fun h => h8 h.symm
    cases wd <;>
    · simp [planned_calls, planned_preparation, planned_pipe, planned_launch, first_failure,
      Call.failed, Call.result, h1, h2, h3, h4, h5, h6, h7, h8] at hfirst
      subst hfirst
      simp [reproc_start, reproc_start_body, reproc_start_cleanup, unless_error,
      start_pipe_stdin, start_inherit_stdin, start_pipe_stdout, start_inherit_stdout,
      start_pipe_stderr, start_inherit_stderr, start_join, start_widen_command_line,
      start_widen_working_directory, start_process_create, pipe_init, pipe_disable_inherit,
      string_join, string_to_wstring, process_create, handle_close, CloseHandle,
      reproc_destroy, StartFrame.enter, reproc_type.zero, new_calls, Nat.add_assoc,
      Call.result, List.count_cons, slots, h1, h2, h3, h4, h5, h6, h7, h8, hne]
      rintro rd wr (⟨rfl, rfl⟩ | ⟨rfl, rfl⟩ | ⟨rfl, rfl⟩) <;> simp
  cases wd with
  | none =>
    by_cases h10 : a.process_create = REPROC_ERROR.REPROC_SUCCESS
    · simp [planned_calls, planned_preparation, planned_pipe, planned_launch, first_failure,
      Call.failed, Call.result, h1, h2, h3, h4, h5, h6, h7, h8, h10] at hfirst
    · simp [planned_calls, planned_preparation, planned_pipe, planned_launch, first_failure,
      Call.failed, Call.result, h1, h2, h3, h4, h5, h6, h7, h8, h10] at hfirst
      subst hfirst
      simp [reproc_start, reproc_start_body, reproc_start_cleanup, unless_error,
      start_pipe_stdin, start_inherit_stdin, start_pipe_stdout, start_inherit_stdout,
      start_pipe_stderr, start_inherit_stderr, start_join, start_widen_command_line,
      start_widen_working_directory, start_process_create, pipe_init, pipe_disable_inherit,
      string_join, string_to_wstring, process_create, handle_close, CloseHandle,
      reproc_destroy, StartFrame.enter, reproc_type.zero, new_calls, Nat.add_assoc,
      Call.result, List.count_cons, slots, h1, h2, h3, h4, h5, h6, h7, h8, h10]
      rintro rd wr (⟨rfl, rfl⟩ | ⟨rfl, rfl⟩ | ⟨rfl, rfl⟩) <;> simp
  | some d =>
    by_cases h9 : a.to_wstring_working_directory = REPROC_ERROR.REPROC_SUCCESS
    swap
    · simp [planned_calls, planned_preparation, planned_pipe, planned_launch, first_failure,
      Call.failed, Call.result, h1, h2, h3, h4, h5, h6, h7, h8, h9] at hfirst
      subst hfirst
      simp [reproc_start, reproc_start_body, reproc_start_cleanup, unless_error,
      start_pipe_stdin, start_inherit_stdin, start_pipe_stdout, start_inherit_stdout,
      start_pipe_stderr, start_inherit_stderr, start_join, start_widen_command_line,
      start_widen_working_directory, start_process_create, pipe_init, pipe_disable_inherit,
      string_join, string_to_wstring, process_create, handle_close, CloseHandle,
      reproc_destroy, StartFrame.enter, reproc_type.zero, new_calls, Nat.add_assoc,
      Call.result, List.count_cons, slots, h1, h2, h3, h4, h5, h6, h7, h8, h9]
      rintro rd wr (⟨rfl, rfl⟩ | ⟨rfl, rfl⟩ | ⟨rfl, rfl⟩) <;> simp
    by_cases h10 : a.process_create = REPROC_ERROR.REPROC_SUCCESS
    · simp [planned_calls, planned_preparation, planned_pipe, planned_launch, first_failure,
      Call.failed, Call.result, h1, h2, h3, h4, h5, h6, h7, h8, h9, h10] at hfirst
    · simp [planned_calls, planned_preparation, planned_pipe, planned_launch, first_failure,
      Call.failed, Call.result, h1, h2, h3, h4, h5, h6, h7, h8, h9, h10] at hfirst
      subst hfirst
      simp [reproc_start, reproc_start_body, reproc_start_cleanup, unless_error,
      start_pipe_stdin, start_inherit_stdin, start_pipe_stdout, start_inherit_stdout,
      start_pipe_stderr, start_inherit_stderr, start_join, start_widen_command_line,
      start_widen_working_directory, start_process_create, pipe_init, pipe_disable_inherit,
      string_join, string_to_wstring, process_create, handle_close, CloseHandle,
      reproc_destroy, StartFrame.enter, reproc_type.zero, new_calls, Nat.add_assoc,
      Call.result, List.count_cons, slots, h1, h2, h3, h4, h5, h6, h7, h8, h9, h10]
      rintro rd wr (⟨rfl, rfl⟩ | ⟨rfl, rfl⟩ | ⟨rfl, rfl⟩) <;> simp

/-- Witness for C1: the three pipes are created and the launch fails (an
executable that does not exist); the error is returned, the instance is all
zero again and `reproc_destroy` changes nothing. -/
theorem reproc_start_failure_unwinds_witness :
    first_failure (planned_calls launch_fails OS.boot [[110, 111, 111, 112]] none) =
      some failed_launch ∧
    (reproc_start launch_fails { os := OS.boot, process := reproc_type.zero }
        [[110, 111, 111, 112]] none).error ≠ REPROC_ERROR.REPROC_SUCCESS ∧
    (reproc_start launch_fails { os := OS.boot, process := reproc_type.zero }
        [[110, 111, 111, 112]] none).state.process = reproc_type.zero ∧
    reproc_destroy (reproc_start launch_fails { os := OS.boot, process := reproc_type.zero }
        [[110, 111, 111, 112]] none).state
      = (reproc_start launch_fails { os := OS.boot, process := reproc_type.zero }
        [[110, 111, 111, 112]] none).state :=
  ⟨by decide,
   (reproc_start_failure_unwinds launch_fails OS.boot [[110, 111, 111, 112]] none
      failed_launch (by decide)).2.1,
   (reproc_start_failure_unwinds launch_fails OS.boot [[110, 111, 111, 112]] none
      failed_launch (by decide)).2.2.2.1,
   (reproc_start_failure_unwinds launch_fails OS.boot [[110, 111, 111, 112]] none
      failed_launch (by decide)).2.2.2.2.2⟩

/-! ## The ownership invariant -/

theorem held_mono (os : OS) (hs hs' : List HANDLE) (h : Held os hs)
    (hle : ∀ x, x ≠ NULL → hs'.count x ≤ hs.count x) : Held os hs' :=
  ⟨h.1, fun x hx => Nat.le_trans (hle x hx) (h.2 x hx)⟩

theorem held_same_handles (os os' : OS) (hs : List HANDLE) (h : Held os hs)
    (hlive : os'.live = os.live) (hnext : os'.next = os.next)
    (hrel : released os' = released os) : Held os' hs := by
  obtain ⟨⟨h1, h2, h3⟩, h4⟩ := h
  refine ⟨⟨?_, ?_, ?_⟩, ?_⟩
  · rw [hlive, hnext]; exact h1
  · rw [hlive, hnext, hrel]; exact h2
  · rw [hrel]; exact h3
  · rw [hlive]; exact h4

theorem released_of_trace (os os' : OS) (c : Call) (ht : os'.trace = os.trace ++ [c])
    (hc : c.closed = none) : released os' = released os := by
  simp [released, ht, List.filterMap_append, hc]

theorem held_mem_live (os : OS) (h : HANDLE) (hs : List HANDLE) (hh : Held os (h :: hs))
    (hne : h ≠ NULL) : h ∈ os.live ∧ hs.count h = 0 := by
  have := hh.2 h hne
  simp only [List.count_cons_self] at this
  by_cases hl : h ∈ os.live
  · simp only [hl, if_true] at this
    exact ⟨hl, by omega⟩
  · simp only [hl, if_false] at this
    omega

theorem handle_close_held (os : OS) (h : HANDLE) (hs : List HANDLE)
    (hh : Held os (h :: hs)) :
    Held (handle_close os h).1 ((handle_close os h).2 :: hs) := by
  by_cases e : h = NULL
  · simpa [handle_close, e] using hh
  · obtain ⟨hl, hc⟩ := held_mem_live os h hs hh e
    obtain ⟨⟨h1, h2, h3⟩, h4⟩ := hh
    have hrel : released (CloseHandle os h) = released os ++ [h] := by
      simp [released, CloseHandle, List.filterMap_append, Call.closed]
    have hnr : h ∉ released os := fun hr => (h2 h hr).2 hl
    simp only [handle_close, e, if_false]
    refine ⟨⟨?_, ?_, ?_⟩, ?_⟩
    · intro x hx
      simp only [CloseHandle, List.mem_filter] at hx
      exact h1 x hx.1
    · intro x hx
      rw [hrel, List.mem_append, List.mem_singleton] at hx
      rcases hx with hx | hx
      · refine ⟨(h2 x hx).1, ?_⟩
        simp only [CloseHandle, List.mem_filter]
        exact fun hm => (h2 x hx).2 hm.1
      · subst hx
        refine ⟨h1 x hl, ?_⟩
        simp [CloseHandle, List.mem_filter]
    · rw [hrel]
      exact List.Nodup.append h3 (List.nodup_singleton h) (by simpa using hnr)
    · intro x hx
      have hx0 : x ≠ 0 := hx
      by_cases exh : x = h
      · subst exh
        simp [List.count_cons, hc, hx0]
      · have := h4 x hx
        have hne : h ≠ x := fun hh => exh hh.symm
        simp only [List.count_cons, beq_iff_eq, hne, if_false, Nat.add_zero] at this
        have hx0' : ¬ (0 : Nat) = x := fun hh => hx0 hh.symm
        simp only [List.count_cons, beq_iff_eq, hx0', if_false, Nat.add_zero, CloseHandle,
          List.mem_filter, decide_eq_true_eq, exh, not_false_eq_true, and_true, ne_eq]
        exact this

theorem pipe_init_held (answer : REPROC_ERROR) (os : OS) (r w : HANDLE) (hs : List HANDLE)
    (hh : Held os (r :: w :: hs)) :
    Held (pipe_init answer os r w).os
      ((pipe_init answer os r w).read :: (pipe_init answer os r w).write :: hs) := by
  by_cases e : answer = REPROC_ERROR.REPROC_SUCCESS
  · obtain ⟨⟨h1, h2, h3⟩, h4⟩ := hh
    simp only [pipe_init, e, if_true]
    have hrel := released_of_trace os (pipe_init REPROC_ERROR.REPROC_SUCCESS os r w).os _
      (by simp only [pipe_init, if_true]) (rfl : (Call.pipe_init REPROC_ERROR.REPROC_SUCCESS
        (os.next + 1) (os.next + 2)).closed = none)
    simp only [pipe_init, if_true] at hrel
    refine ⟨⟨?_, ?_, ?_⟩, ?_⟩
    · intro x hx
      simp only [List.mem_append, List.mem_cons, List.mem_singleton, List.not_mem_nil,
        or_false] at hx
      rcases hx with hx | hx | hx
      · have := h1 x hx
        show x ≤ os.next + 2
        (simp only [HANDLE, NULL] at *; omega)
      · show x ≤ os.next + 2
        (simp only [HANDLE, NULL] at *; omega)
      · show x ≤ os.next + 2
        (simp only [HANDLE, NULL] at *; omega)
    · intro x hx
      rw [hrel] at hx
      have hx1 := (h2 x hx).1
      have hx2 := (h2 x hx).2
      refine ⟨by show x ≤ os.next + 2; (simp only [HANDLE, NULL] at *; omega), ?_⟩
      simp only [List.mem_append, List.mem_cons, List.mem_singleton, List.not_mem_nil,
        or_false, not_or]
      exact ⟨hx2, by (simp only [HANDLE, NULL] at *; omega), by (simp only [HANDLE, NULL] at *; omega)⟩
    · rw [hrel]; exact h3
    · intro x hx
      have hx0 : x ≠ 0 := hx
      have hb := h4 x hx
      have hn1 : os.next + 1 ∉ os.live := fun hm => by have := h1 _ hm; (simp only [HANDLE, NULL] at *; omega)
      have hn2 : os.next + 2 ∉ os.live := fun hm => by have := h1 _ hm; (simp only [HANDLE, NULL] at *; omega)
      have hcount : hs.count x ≤ if x ∈ os.live then 1 else 0 := by
        have : hs.count x ≤ (r :: w :: hs).count x := by
          simp only [List.count_cons]; omega
        omega
      simp only [List.count_cons, beq_iff_eq, List.mem_append, List.mem_cons,
        List.mem_singleton, List.not_mem_nil, or_false]
      by_cases e1 : x = os.next + 1
      · subst e1
        simp only [hn1, if_false] at hcount
        simp only [or_true, true_or, if_true]
        have : ¬ (os.next + 2 = os.next + 1) := by omega
        simp only [this, if_false]
        omega
      · by_cases e2 : x = os.next + 2
        · subst e2
          simp only [hn2, if_false] at hcount
          simp only [or_true, if_true]
          have : ¬ (os.next + 1 = os.next + 2) := by omega
          simp only [this, if_false]
          omega
        · have e1' : ¬ (os.next + 1 = x) := fun hh => e1 hh.symm
          have e2' : ¬ (os.next + 2 = x) := fun hh => e2 hh.symm
          simp only [e1, e2, e1', e2', or_false, if_false, Nat.add_zero]
          exact hcount
  · simp only [pipe_init, e, if_false]
    exact held_same_handles os _ _ hh rfl rfl (released_of_trace os _ _ rfl rfl)

theorem process_create_held (answer : REPROC_ERROR) (pid : DWORD) (os : OS)
    (cmd wd : Option WString) (i o e : HANDLE) (id : DWORD) (h : HANDLE) (hs : List HANDLE)
    (hh : Held os (h :: hs)) :
    Held (process_create answer pid os cmd wd i o e id h).os
      ((process_create answer pid os cmd wd i o e id h).handle :: hs) := by
  by_cases ea : answer = REPROC_ERROR.REPROC_SUCCESS
  · obtain ⟨⟨h1, h2, h3⟩, h4⟩ := hh
    simp only [process_create, ea, if_true]
    have hrel := released_of_trace os
      (process_create REPROC_ERROR.REPROC_SUCCESS pid os cmd wd i o e id h).os _
      (by simp only [process_create, if_true])
      (rfl : (Call.process_create cmd wd i o e REPROC_ERROR.REPROC_SUCCESS pid
        (os.next + 1)).closed = none)
    simp only [process_create, if_true] at hrel
    refine ⟨⟨?_, ?_, ?_⟩, ?_⟩
    · intro x hx
      simp only [List.mem_append, List.mem_singleton] at hx
      rcases hx with hx | hx
      · have := h1 x hx
        show x ≤ os.next + 1
        (simp only [HANDLE, NULL] at *; omega)
      · show x ≤ os.next + 1
        (simp only [HANDLE, NULL] at *; omega)
    · intro x hx
      rw [hrel] at hx
      have hx1 := (h2 x hx).1
      have hx2 := (h2 x hx).2
      refine ⟨by show x ≤ os.next + 1; (simp only [HANDLE, NULL] at *; omega), ?_⟩
      simp only [List.mem_append, List.mem_singleton, not_or]
      exact ⟨hx2, by (simp only [HANDLE, NULL] at *; omega)⟩
    · rw [hrel]; exact h3
    · intro x hx
      have hb := h4 x hx
      have hn1 : os.next + 1 ∉ os.live := fun hm => by have := h1 _ hm; (simp only [HANDLE, NULL] at *; omega)
      have hcount : hs.count x ≤ if x ∈ os.live then 1 else 0 := by
        have : hs.count x ≤ (h :: hs).count x := by
          simp only [List.count_cons]; omega
        omega
      simp only [List.count_cons, beq_iff_eq, List.mem_append, List.mem_singleton]
      by_cases e1 : x = os.next + 1
      · subst e1
        simp only [hn1, if_false] at hcount
        simp only [or_true, if_true]
        omega
      · have e1' : ¬ (os.next + 1 = x) := fun hh => e1 hh.symm
        simp only [e1, e1', or_false, if_false, Nat.add_zero]
        exact hcount
  · simp only [process_create, ea, if_false]
    exact held_same_handles os _ _ hh rfl rfl (released_of_trace os _ _ rfl rfl)

theorem reproc_destroy_held (st : State) (hs : List HANDLE)
    (hh : Held st.os (slots st.process ++ hs)) :
    Held (reproc_destroy st).os (slots (reproc_destroy st).process ++ hs) := by
  obtain ⟨os, ⟨id, h0, h1, h2, h3⟩⟩ := st
  simp only [slots, List.cons_append, List.nil_append] at hh
  have s1 := handle_close_held os h0 _ hh
  have s1' := held_mono _ _ (h1 :: (handle_close os h0).2 :: h2 :: h3 :: hs) s1
    (by intro x _; simp only [List.count_cons]; omega)
  have s2 := handle_close_held _ h1 _ s1'
  have s2' := held_mono _ _
    (h2 :: (handle_close os h0).2 :: (handle_close (handle_close os h0).1 h1).2 :: h3 :: hs) s2
    (by intro x _; simp only [List.count_cons]; omega)
  have s3 := handle_close_held _ h2 _ s2'
  have s3' := held_mono _ _
    (h3 :: (handle_close os h0).2 :: (handle_close (handle_close os h0).1 h1).2 ::
      (handle_close (handle_close (handle_close os h0).1 h1).1 h2).2 :: hs) s3
    (by intro x _; simp only [List.count_cons]; omega)
  have s4 := handle_close_held _ h3 _ s3'
  exact held_mono _ _ _ s4
    (by intro x _; simp only [reproc_destroy, slots, List.cons_append, List.nil_append,
          List.count_cons]; omega)

theorem reproc_close_held (st : State) (s : REPROC_STREAM)
    (hh : Held st.os (slots st.process)) :
    Held (reproc_close st s).os (slots (reproc_close st s).process) := by
  obtain ⟨os, ⟨id, h0, h1, h2, h3⟩⟩ := st
  simp only [slots] at hh
  cases s
  · have s1 := handle_close_held os h1 [h0, h2, h3]
      (held_mono _ _ _ hh (by intro x _; simp only [List.count_cons]; omega))
    exact held_mono _ _ _ s1
      (by intro x _; simp only [reproc_close, slots, List.count_cons]; omega)
  · have s1 := handle_close_held os h2 [h0, h1, h3]
      (held_mono _ _ _ hh (by intro x _; simp only [List.count_cons]; omega))
    exact held_mono _ _ _ s1
      (by intro x _; simp only [reproc_close, slots, List.count_cons]; omega)
  · have s1 := handle_close_held os h3 [h0, h1, h2]
      (held_mono _ _ _ hh (by intro x _; simp only [List.count_cons]; omega))
    exact held_mono _ _ _ s1
      (by intro x _; simp only [reproc_close, slots, List.count_cons]; omega)

theorem pipe_disable_inherit_held (answer : REPROC_ERROR) (os : OS) (pipe : HANDLE)
    (hs : List HANDLE) (hh : Held os hs) :
    Held (pipe_disable_inherit answer os pipe).2 hs := by
  by_cases e : answer = REPROC_ERROR.REPROC_SUCCESS
  · simp only [pipe_disable_inherit, e, if_true]
    exact held_same_handles os _ _ hh rfl rfl (released_of_trace os _ _ rfl rfl)
  · simp only [pipe_disable_inherit, e, if_false]
    exact held_same_handles os _ _ hh rfl rfl (released_of_trace os _ _ rfl rfl)

theorem unless_error_held (f : StartFrame) (rest : StartFrame → StartFrame)
    (hf : Held f.state.os f.handles)
    (hrest : ∀ g : StartFrame, Held g.state.os g.handles →
      Held (rest g).state.os (rest g).handles) :
    Held (unless_error f rest).state.os (unless_error f rest).handles := by
  simp only [unless_error]
  split
  · exact hf
  · exact hrest f hf

theorem start_pipe_stdin_held (a : StartAnswers) (f : StartFrame)
    (hf : Held f.state.os f.handles) :
    Held (start_pipe_stdin a f).state.os (start_pipe_stdin a f).handles := by
  have s1 := pipe_init_held a.pipe_init_stdin f.state.os f.child_stdin
    f.state.process.parent_stdin
    [f.child_stdout, f.child_stderr, f.state.process.handle, f.state.process.parent_stdout,
      f.state.process.parent_stderr]
    (held_mono _ _ _ hf
      (by intro x _; simp only [StartFrame.handles, List.count_cons]; omega))
  exact held_mono _ _ _ s1
    (by intro x _; simp only [start_pipe_stdin, StartFrame.handles, List.count_cons]; omega)

theorem start_pipe_stdout_held (a : StartAnswers) (f : StartFrame)
    (hf : Held f.state.os f.handles) :
    Held (start_pipe_stdout a f).state.os (start_pipe_stdout a f).handles := by
  have s1 := pipe_init_held a.pipe_init_stdout f.state.os f.state.process.parent_stdout
    f.child_stdout
    [f.child_stdin, f.child_stderr, f.state.process.handle, f.state.process.parent_stdin,
      f.state.process.parent_stderr]
    (held_mono _ _ _ hf
      (by intro x _; simp only [StartFrame.handles, List.count_cons]; omega))
  exact held_mono _ _ _ s1
    (by intro x _; simp only [start_pipe_stdout, StartFrame.handles, List.count_cons]; omega)

theorem start_pipe_stderr_held (a : StartAnswers) (f : StartFrame)
    (hf : Held f.state.os f.handles) :
    Held (start_pipe_stderr a f).state.os (start_pipe_stderr a f).handles := by
  have s1 := pipe_init_held a.pipe_init_stderr f.state.os f.state.process.parent_stderr
    f.child_stderr
    [f.child_stdin, f.child_stdout, f.state.process.handle, f.state.process.parent_stdin,
      f.state.process.parent_stdout]
    (held_mono _ _ _ hf
      (by intro x _; simp only [StartFrame.handles, List.count_cons]; omega))
  exact held_mono _ _ _ s1
    (by intro x _; simp only [start_pipe_stderr, StartFrame.handles, List.count_cons]; omega)

theorem start_process_create_held (a : StartAnswers) (f : StartFrame)
    (hf : Held f.state.os f.handles) :
    Held (start_process_create a f).state.os (start_process_create a f).handles := by
  have s1 := process_create_held a.process_create a.pid f.state.os f.command_line_wstring
    f.working_directory_wstring f.child_stdin f.child_stdout f.child_stderr
    f.state.process.id f.state.process.handle
    [f.child_stdin, f.child_stdout, f.child_stderr, f.state.process.parent_stdin,
      f.state.process.parent_stdout, f.state.process.parent_stderr]
    (held_mono _ _ _ hf
      (by intro x _; simp only [StartFrame.handles, List.count_cons]; omega))
  exact held_mono _ _ _ s1
    (by intro x _; simp only [start_process_create, StartFrame.handles, List.count_cons]; omega)

theorem reproc_start_body_held (a : StartAnswers) (argv : List CString)
    (wd : Option CString) (f : StartFrame) (hf : Held f.state.os f.handles) :
    Held (reproc_start_body a argv wd f).state.os (reproc_start_body a argv wd f).handles := by
  simp only [reproc_start_body]
  refine unless_error_held _ _ (start_pipe_stdin_held a f hf) fun f hf => ?_
  refine unless_error_held _ _
    (pipe_disable_inherit_held a.disable_inherit_stdin _ _ _ hf) fun f hf => ?_
  refine unless_error_held _ _ (start_pipe_stdout_held a f hf) fun f hf => ?_
  refine unless_error_held _ _
    (pipe_disable_inherit_held a.disable_inherit_stdout _ _ _ hf) fun f hf => ?_
  refine unless_error_held _ _ (start_pipe_stderr_held a f hf) fun f hf => ?_
  refine unless_error_held _ _
    (pipe_disable_inherit_held a.disable_inherit_stderr _ _ _ hf) fun f hf => ?_
  refine unless_error_held _ _
    (held_same_handles f.state.os _ _ hf rfl rfl (released_of_trace _ _ _ rfl rfl))
    fun f hf => ?_
  refine unless_error_held _ _
    (held_same_handles f.state.os _ _ hf rfl rfl (released_of_trace _ _ _ rfl rfl))
    fun f hf => ?_
  refine unless_error_held _ _ ?_ fun f hf => start_process_create_held a f hf
  cases wd with
  | none => exact hf
  | some d =>
    exact held_same_handles f.state.os _ _ hf rfl rfl (released_of_trace _ _ _ rfl rfl)

theorem reproc_start_cleanup_held (f : StartFrame) (hf : Held f.state.os f.handles) :
    Held (reproc_start_cleanup f).state.os (slots (reproc_start_cleanup f).state.process) := by
  obtain ⟨c1, c2, c3, s1, s2, s3, err, ⟨os, ⟨id, h0, h1, h2, h3⟩⟩⟩ := f
  simp only [StartFrame.handles] at hf
  have k1 := handle_close_held os c1 _ hf
  have k1' := held_mono _ _ (c2 :: c3 :: h0 :: h1 :: h2 :: [h3]) k1
    (by intro x _; simp only [List.count_cons]; omega)
  have k2 := handle_close_held _ c2 _ k1'
  have k2' := held_mono _ _ (c3 :: h0 :: h1 :: h2 :: [h3]) k2
    (by intro x _; simp only [List.count_cons]; omega)
  have k3 := handle_close_held _ c3 _ k2'
  have k3' := held_mono _ _ (slots ⟨id, h0, h1, h2, h3⟩ ++ []) k3
    (by intro x _; simp only [slots, List.append_nil, List.count_cons]; omega)
  by_cases e : err = REPROC_ERROR.REPROC_SUCCESS
  · simp only [reproc_start_cleanup, e, ne_eq, not_true_eq_false, if_false]
    simpa using k3'
  · simp only [reproc_start_cleanup, e, ne_eq, not_false_eq_true, if_true]
    have := reproc_destroy_held
      ⟨(handle_close (handle_close (handle_close os c1).1 c2).1 c3).1, ⟨id, h0, h1, h2, h3⟩⟩
      [] k3'
    simpa using this

theorem reproc_start_held (a : StartAnswers) (st : State) (argv : List CString)
    (wd : Option CString) (hh : Held st.os (slots st.process)) :
    Held (reproc_start a st argv wd).state.os
      (slots (reproc_start a st argv wd).state.process) := by
  apply reproc_start_cleanup_held
  apply reproc_start_body_held
  exact held_mono _ _ _ hh
    (by intro x hx
        have hx0 : ¬ (0 : Nat) = x := fun h => hx h.symm
        simp only [StartFrame.handles, StartFrame.enter, slots, List.count_cons, beq_iff_eq,
          hx0, if_false]
        omega)

theorem reproc_wait_held (a : WaitAnswers) (st : State) (milliseconds : DWORD)
    (exit_status : Option DWORD) (hs : List HANDLE) (hh : Held st.os hs) :
    Held (reproc_wait a st milliseconds exit_status).state.os hs ∧
    (reproc_wait a st milliseconds exit_status).state.process = st.process := by
  simp only [reproc_wait, WaitForSingleObject, GetExitCodeProcess, SetLastError]
  split
  · exact ⟨held_same_handles st.os _ _ hh rfl rfl (released_of_trace _ _ _ rfl rfl), rfl⟩
  · split
    · exact ⟨held_same_handles st.os _ _ hh rfl rfl (released_of_trace _ _ _ rfl rfl), rfl⟩
    · split
      · exact ⟨held_same_handles st.os _ _ hh rfl rfl (released_of_trace _ _ _ rfl rfl), rfl⟩
      · have h1 : Held
            ({ st.os with last_error := if a.wait_result = WAIT_FAILED then a.wait_error else 0,
                          trace := st.os.trace ++
                            [Call.WaitForSingleObject st.process.handle milliseconds
                              a.wait_result] } : OS) hs :=
          held_same_handles st.os _ _ hh rfl rfl (released_of_trace _ _ _ rfl rfl)
        split <;>
          exact ⟨held_same_handles _ _ _ h1 rfl rfl (released_of_trace _ _ _ rfl rfl), rfl⟩

theorem reproc_terminate_held (a : SignalAnswers) (st : State) (milliseconds : DWORD)
    (hs : List HANDLE) (hh : Held st.os hs) :
    Held (reproc_terminate a st milliseconds).state.os hs ∧
    (reproc_terminate a st milliseconds).state.process = st.process := by
  have h1 : Held (GenerateConsoleCtrlEvent a.ok a.error_code (SetLastError st.os 0)
      CTRL_BREAK_EVENT st.process.id).2 hs :=
    held_same_handles st.os _ _ hh rfl rfl (released_of_trace _ _ _ rfl rfl)
  simp only [reproc_terminate]
  split
  · exact ⟨h1, rfl⟩
  · exact reproc_wait_held a.wait _ milliseconds none hs h1

theorem reproc_kill_held (a : SignalAnswers) (st : State) (milliseconds : DWORD)
    (hs : List HANDLE) (hh : Held st.os hs) :
    Held (reproc_kill a st milliseconds).state.os hs ∧
    (reproc_kill a st milliseconds).state.process = st.process := by
  have h1 : Held (TerminateProcess a.ok a.error_code (SetLastError st.os 0)
      st.process.handle 1).2 hs :=
    held_same_handles st.os _ _ hh rfl rfl (released_of_trace _ _ _ rfl rfl)
  simp only [reproc_kill]
  split
  · exact ⟨h1, rfl⟩
  · exact reproc_wait_held a.wait _ milliseconds none hs h1

theorem reproc_write_held (answer : REPROC_ERROR) (transferred : Nat) (st : State)
    (to_write : Nat) (hs : List HANDLE) (hh : Held st.os hs) :
    Held (reproc_write answer transferred st to_write).state.os hs ∧
    (reproc_write answer transferred st to_write).state.process = st.process :=
  ⟨held_same_handles st.os _ _ hh rfl rfl (released_of_trace _ _ _ rfl rfl), rfl⟩

theorem reproc_read_held (answer : REPROC_ERROR) (transferred : Nat) (st : State)
    (stream : REPROC_STREAM) (size bytes : Nat) (hs : List HANDLE) (hh : Held st.os hs) :
    Held (reproc_read answer transferred st stream size bytes).state.os hs ∧
    (reproc_read answer transferred st stream size bytes).state.process = st.process := by
  cases stream
  · exact ⟨hh, rfl⟩
  · exact ⟨held_same_handles st.os _ _ hh rfl rfl (released_of_trace _ _ _ rfl rfl), rfl⟩
  · exact ⟨held_same_handles st.os _ _ hh rfl rfl (released_of_trace _ _ _ rfl rfl), rfl⟩

theorem step_held (st : State) (op : Op) (hh : Held st.os (slots st.process)) :
    Held (step st op).os (slots (step st op).process) := by
  cases op with
  | start a argv wd => exact reproc_start_held a st argv wd hh
  | write answer transferred to_write =>
    have := reproc_write_held answer transferred st to_write _ hh
    simp only [step]; rw [this.2]; exact this.1
  | read answer transferred stream size bytes =>
    have := reproc_read_held answer transferred st stream size bytes _ hh
    simp only [step]; rw [this.2]; exact this.1
  | close stream => exact reproc_close_held st stream hh
  | wait a ms exit_status =>
    have := reproc_wait_held a st ms exit_status _ hh
    simp only [step]; rw [this.2]; exact this.1
  | terminate a ms =>
    have := reproc_terminate_held a st ms _ hh
    simp only [step]; rw [this.2]; exact this.1
  | kill a ms =>
    have := reproc_kill_held a st ms _ hh
    simp only [step]; rw [this.2]; exact this.1
  | destroy =>
    have := reproc_destroy_held st [] (by simpa using hh)
    simpa [step] using this

theorem run_held (ops : List Op) (st : State) (hh : Held st.os (slots st.process)) :
    Held (run st ops).os (slots (run st ops).process) := by
  induction ops generalizing st with
  | nil => exact hh
  | cons op ops ih => exact ih (step st op) (step_held st op hh)

theorem held_safe (st : State) (hh : Held st.os (slots st.process)) :
    Safe st ∧ Owned st := by
  obtain ⟨⟨h1, h2, h3⟩, h4⟩ := hh
  have hlive : ∀ h ∈ slots st.process, h ≠ NULL → h ∈ st.os.live := by
    intro h hm hne
    have hc := h4 h hne
    have hpos : 0 < (slots st.process).count h := List.count_pos_iff.mpr hm
    by_contra hl
    simp only [hl, if_false] at hc
    omega
  refine ⟨⟨?_, h3⟩, ?_, ?_⟩
  · intro h hm
    by_cases e : h = NULL
    · exact Or.inl e
    · exact Or.inr ⟨hlive h hm e, fun hr => (h2 h hr).2 (hlive h hm e)⟩
  · intro h hm
    by_cases e : h = NULL
    · exact Or.inl e
    · exact Or.inr (hlive h hm e)
  · rw [List.nodup_iff_count_le_one]
    intro x
    by_cases e : x = NULL
    · subst e
      have : List.count NULL (List.filter (fun h => decide (h ≠ NULL)) (slots st.process)) = 0 := by
        rw [List.count_eq_zero]
        simp [List.mem_filter]
      omega
    · have hc := h4 x e
      have hle : List.count x (List.filter (fun h => decide (h ≠ NULL)) (slots st.process))
          ≤ (slots st.process).count x :=
        (List.filter_sublist _).count_le x
      split at hc <;> omega

/-- C8. Starting from a zero-initialised instance in a well-formed operating
system, after any sequence of `reproc_start`, `reproc_write`, `reproc_read`,
`reproc_close`, `reproc_wait`, `reproc_terminate`, `reproc_kill` and
`reproc_destroy` calls with any answers of the operating system (sequences
with a single, first `reproc_start` included), each of the four handle slots
holds the closed sentinel or a handle that is open and has never been
released, no handle has been released twice, and no open handle sits in two
slots. -/
theorem reproc_slots_never_dangle (os : OS) (ops : List Op) (hwf : OS.WF os) :
    Safe (run { os := os, process := reproc_type.zero } ops) ∧
    Owned (run { os := os, process := reproc_type.zero } ops) := by
  apply held_safe
  apply run_held
  refine ⟨hwf, ?_⟩
  intro x hx
  have hx0 : ¬ (0 : Nat) = x := fun h => hx h.symm
  simp [slots, reproc_type.zero, List.count_cons, hx0]

/-- Witness for C8: the whole life of an instance on a fresh operating
system. -/
theorem reproc_slots_never_dangle_witness :
    OS.WF OS.boot ∧
    Safe (run { os := OS.boot, process := reproc_type.zero } lifecycle_example) ∧
    Owned (run { os := OS.boot, process := reproc_type.zero } lifecycle_example) :=
  ⟨by simp [OS.WF, OS.boot, released],
   reproc_slots_never_dangle OS.boot lifecycle_example (by simp [OS.WF, OS.boot, released])⟩

end Reproc
